import Mathlib

/-!
# Firestarter — Arduino UNO RURP shield hardware layer

A shallow embedding of `src/uno_rurp_shield.cpp`: the register bus
(`rurp_write_to_register`, `rurp_read_from_register`), boot initialisation
(`rurp_setup`), the mode switch (`rurp_set_communication_mode`,
`rurp_set_programmer_mode`), the revision query and the voltage sensor.

Machine integers are natural numbers reduced modulo `2 ^ w` at every
conversion the C code performs; `double` arithmetic is carried out in `ℚ`.
-/

namespace Firestarter

/-! ## What the translation unit takes from its headers -/

/-- The items `uno_rurp_shield.cpp` uses from `rurp_shield.h` and `rurp_utils.h`
(the port-B line masks, the control-register bit `P1_VPP_ENABLE`, the revision
numbers, the width of `register_t`, whether `HARDWARE_REVISION` is defined, and
the control-byte remapping helper).  They are parameters of the embedding. -/
structure Board where
  LEAST_SIGNIFICANT_BYTE : Nat
  MOST_SIGNIFICANT_BYTE : Nat
  CONTROL_REGISTER : Nat
  OUTPUT_ENABLE : Nat
  CHIP_ENABLE : Nat
  RW : Nat
  P1_VPP_ENABLE : Nat
  REVISION_0 : Int
  REVISION_1 : Int
  REVISION_2 : Int
  /-- Width in bits of `register_t`. -/
  REGISTER_BITS : Nat
  /-- Whether the macro `HARDWARE_REVISION` is defined. -/
  HARDWARE_REVISION : Bool
  /-- The helper `rurp_map_ctrl_reg_to_hardware_revision`, as a function of the
  hardware revision in effect and of the logical control value. -/
  rurp_map_ctrl_reg_to_hardware_revision : Int → Nat → Nat

/-- Well-formed header items: the three `case` labels of the register `switch`
are distinct (duplicate labels do not compile) and are port-B masks that fit the
`uint8_t` selector, and `register_t` holds at least a byte. -/
structure Board.WF (b : Board) : Prop where
  lsb_lt : b.LEAST_SIGNIFICANT_BYTE < 256
  msb_lt : b.MOST_SIGNIFICANT_BYTE < 256
  ctrl_lt : b.CONTROL_REGISTER < 256
  lsb_ne_msb : b.LEAST_SIGNIFICANT_BYTE ≠ b.MOST_SIGNIFICANT_BYTE
  lsb_ne_ctrl : b.LEAST_SIGNIFICANT_BYTE ≠ b.CONTROL_REGISTER
  msb_ne_ctrl : b.MOST_SIGNIFICANT_BYTE ≠ b.CONTROL_REGISTER
  bits_ge : 8 ≤ b.REGISTER_BITS

/-- The three selectors as port-B select lines: each mask is nonzero, no two
share a bit, and none shares a bit with `OUTPUT_ENABLE` or `CHIP_ENABLE`, the
lines `rurp_setup` leaves high. -/
structure Board.Lines (b : Board) : Prop where
  lsb_ne_zero : b.LEAST_SIGNIFICANT_BYTE ≠ 0
  msb_ne_zero : b.MOST_SIGNIFICANT_BYTE ≠ 0
  ctrl_ne_zero : b.CONTROL_REGISTER ≠ 0
  lsb_msb : b.LEAST_SIGNIFICANT_BYTE &&& b.MOST_SIGNIFICANT_BYTE = 0
  lsb_ctrl : b.LEAST_SIGNIFICANT_BYTE &&& b.CONTROL_REGISTER = 0
  msb_ctrl : b.MOST_SIGNIFICANT_BYTE &&& b.CONTROL_REGISTER = 0
  idle_lsb : (b.OUTPUT_ENABLE ||| b.CHIP_ENABLE) &&& b.LEAST_SIGNIFICANT_BYTE = 0
  idle_msb : (b.OUTPUT_ENABLE ||| b.CHIP_ENABLE) &&& b.MOST_SIGNIFICANT_BYTE = 0
  idle_ctrl : (b.OUTPUT_ENABLE ||| b.CHIP_ENABLE) &&& b.CONTROL_REGISTER = 0

/-- The record `rurp_configuration_t`, reduced to the fields this file reads. -/
structure rurp_configuration_t where
  hardware_revision : Nat
  r1 : Int
  r2 : Int
  deriving DecidableEq, Repr

/-- Arduino pin modes used by `pinMode`. -/
inductive PinMode where
  | INPUT
  | OUTPUT
  | INPUT_PULLUP
  deriving DecidableEq, Repr

/-! ## Program state -/

/-- The globals of the translation unit, the AVR port registers it touches and
the host serial link, together with two observation logs (most recent entry
first): `portb_log` records every value assigned to the register `PORTB`,
paired with the byte on `PORTD` at that moment; `delays` records every
`delayMicroseconds` call made by the register bus. -/
structure State where
  lsb_address : Nat
  msb_address : Nat
  control_register : Nat
  revision : Int
  comMode : Bool
  rurp_config : rurp_configuration_t
  DDRB : Nat
  PORTB : Nat
  DDRD : Nat
  PORTD : Nat
  mode_HARDWARE_REVISION_PIN : PinMode
  mode_VOLTAGE_MEASURE_PIN : PinMode
  serial_begun : Bool
  portb_log : List (Nat × Nat)
  delays : List Nat
  deriving DecidableEq, Repr

/-- Range of the typed shadow globals: `uint8_t` address bytes and a
`register_t` control shadow. -/
structure State.WF (b : Board) (s : State) : Prop where
  lsb_lt : s.lsb_address < 256
  msb_lt : s.msb_address < 256
  ctrl_lt : s.control_register < 2 ^ b.REGISTER_BITS

/-! ## Revision query -/

/-- The function `rurp_get_physical_hardware_revision`. -/
def rurp_get_physical_hardware_revision (s : State) : Int :=
  s.revision

/-- The function `rurp_get_hardware_revision`. -/
def rurp_get_hardware_revision (s : State) : Int :=
  if s.rurp_config.hardware_revision < 0xFF then
    (s.rurp_config.hardware_revision : Int)
  else
    rurp_get_physical_hardware_revision s

/-! ## Data bus -/

/-- The function `rurp_set_data_as_output`. -/
def rurp_set_data_as_output (s : State) : State :=
  { s with DDRD := 0xff }

/-- The function `rurp_set_data_as_input`. -/
def rurp_set_data_as_input (s : State) : State :=
  { s with DDRD := 0x00 }

/-- The function `rurp_write_data_buffer`; the argument is converted to `uint8_t`. -/
def rurp_write_data_buffer (data : Nat) (s : State) : State :=
  let data := data % 256
  let s := rurp_set_data_as_output s
  { s with PORTD := data }

/-- An assignment of `v` to the register `PORTB`: the register takes the value
and the assignment is recorded in `portb_log` with the byte then on `PORTD`. -/
def write_PORTB (v : Nat) (s : State) : State :=
  { s with PORTB := v, portb_log := (v, s.PORTD) :: s.portb_log }

/-- The function `rurp_set_control_pin`. -/
def rurp_set_control_pin (pin state : Nat) (s : State) : State :=
  let pin := pin % 256
  if state % 256 ≠ 0 then
    write_PORTB ((s.PORTB ||| pin) % 256) s
  else
    write_PORTB (s.PORTB &&& (0xFF ^^^ pin)) s

/-! ## Register bus -/

/-- The statements of `rurp_write_to_register` after its `switch`
(lines 182–190): drive the bus, pulse the select line, settle if asked. -/
def rurp_write_to_register_latch (reg data : Nat) (settle : Bool) (s : State) : State :=
  let s := rurp_write_data_buffer data s
  let s := write_PORTB ((s.PORTB ||| reg) % 256) s
  let s := write_PORTB (s.PORTB &&& (0xFF ^^^ reg)) s
  if settle then { s with delays := 4 :: s.delays } else s

/-- The function `rurp_write_to_register`.  The arguments are converted to `uint8_t` and
`register_t` on entry. -/
def rurp_write_to_register (b : Board) (reg data : Nat) (s : State) : State :=
  let reg := reg % 256
  let data := data % 2 ^ b.REGISTER_BITS
  if reg = b.LEAST_SIGNIFICANT_BYTE then
    if s.lsb_address = data % 256 then s
    else
      let s := { s with lsb_address := data % 256 }
      rurp_write_to_register_latch reg data false s
  else if reg = b.MOST_SIGNIFICANT_BYTE then
    if s.msb_address = data % 256 then s
    else
      let s := { s with msb_address := data % 256 }
      rurp_write_to_register_latch reg data false s
  else if reg = b.CONTROL_REGISTER then
    if s.control_register = data then s
    else
      let settle : Bool :=
        decide ((s.control_register &&& b.P1_VPP_ENABLE) > (data &&& b.P1_VPP_ENABLE))
      let s := { s with control_register := data }
      let data :=
        if b.HARDWARE_REVISION then
          b.rurp_map_ctrl_reg_to_hardware_revision (rurp_get_hardware_revision s) data
            % 2 ^ b.REGISTER_BITS
        else data
      rurp_write_to_register_latch reg data settle s
  else s

/-- The function `rurp_read_from_register`. -/
def rurp_read_from_register (b : Board) (reg : Nat) (s : State) : Nat :=
  let reg := reg % 256
  if reg = b.LEAST_SIGNIFICANT_BYTE then s.lsb_address
  else if reg = b.MOST_SIGNIFICANT_BYTE then s.msb_address
  else if reg = b.CONTROL_REGISTER then s.control_register
  else 0

/-! ## Mode switch -/

/-- The function `rurp_set_communication_mode`.  `Serial.begin` opens the host link; the
hardware serial port of the UNO reports ready at once, so the wait loop falls
through, and `Serial.flush` leaves the modelled state alone. -/
def rurp_set_communication_mode (s : State) : State :=
  let s := { s with DDRD := s.DDRD &&& (0xFF ^^^ 0x01) }
  let s := { s with serial_begun := true }
  { s with comMode := true }

/-- The function `rurp_set_programmer_mode`. -/
def rurp_set_programmer_mode (s : State) : State :=
  let s := { s with comMode := false }
  let s := { s with serial_begun := false }
  { s with DDRD := (s.DDRD ||| 0x01) % 256 }

/-! ## Boot initialisation -/

/-- What `rurp_setup` reads from outside the translation unit: the two probe
pins and the record that `load_config` installs in `rurp_config`. -/
structure BootInputs where
  digitalRead_HARDWARE_REVISION_PIN : Int
  analogRead_VOLTAGE_MEASURE_PIN : Int
  load_config : rurp_configuration_t

/-- The part of `rurp_setup` before the three register writes (lines 39–69):
bus direction, probe pins and revision detection, port-B setup and the
sentinel values of the shadows.  `debug_setup` touches none of the modelled
state. -/
def rurp_setup_init (b : Board) (i : BootInputs) (s : State) : State :=
  let s := rurp_set_data_as_output s
  let s := { s with mode_HARDWARE_REVISION_PIN := PinMode.INPUT_PULLUP }
  let s := { s with mode_VOLTAGE_MEASURE_PIN := PinMode.INPUT_PULLUP }
  let value := i.digitalRead_HARDWARE_REVISION_PIN
  let s :=
    if value = 1 then
      { s with revision :=
          if i.analogRead_VOLTAGE_MEASURE_PIN < 1000 then b.REVISION_1 else b.REVISION_0 }
    else if value = 0 then
      { s with revision := b.REVISION_2 }
    else
      { s with revision := -1 }
  let s := { s with mode_VOLTAGE_MEASURE_PIN := PinMode.INPUT }
  let s := { s with DDRB :=
    (b.LEAST_SIGNIFICANT_BYTE ||| b.MOST_SIGNIFICANT_BYTE ||| b.CONTROL_REGISTER
      ||| b.OUTPUT_ENABLE ||| b.CHIP_ENABLE ||| b.RW) % 256 }
  let s := write_PORTB ((b.OUTPUT_ENABLE ||| b.CHIP_ENABLE) % 256) s
  let s := { s with lsb_address := 0xff }
  let s := { s with msb_address := 0xff }
  { s with control_register := 0xff % 2 ^ b.REGISTER_BITS }

/-- The function `rurp_setup`. -/
def rurp_setup (b : Board) (i : BootInputs) (s : State) : State :=
  let s := rurp_setup_init b i s
  let s := rurp_write_to_register b b.LEAST_SIGNIFICANT_BYTE 0x00 s
  let s := rurp_write_to_register b b.MOST_SIGNIFICANT_BYTE 0x00 s
  let s := rurp_write_to_register b b.CONTROL_REGISTER 0x00 s
  let s := { s with rurp_config := i.load_config }
  rurp_set_communication_mode s

/-! ## Voltage sensor -/

/-- The constant `INPUT_RESOLUTION`. -/
def INPUT_RESOLUTION : Int := 1023

/-- The constant `AVERAGE_OF`. -/
def AVERAGE_OF : Nat := 500

/-- The function `rurp_read_vcc`, taken as a function of the ADC data registers read after the
conversion: `1126400L / (double)result / 1000`. -/
def rurp_read_vcc (ADCL ADCH : Nat) : ℚ :=
  let result : Nat := ADCL % 256
  let result : Nat := result ||| ((ADCH % 256) <<< 8)
  (1126400 : ℚ) / (result : ℚ) / 1000

/-- The function `rurp_read_voltage`, taken as a function of the configuration record, the ADC
data registers seen by `rurp_read_vcc` and the sample `analogRead` returns. -/
def rurp_read_voltage (cfg : rurp_configuration_t) (ADCL ADCH : Nat) (sample : Int) : ℚ :=
  let refRes : ℚ := rurp_read_vcc ADCL ADCH / (INPUT_RESOLUTION : ℚ)
  let r1 : Int := cfg.r1
  let r2 : Int := cfg.r2
  let voltageDivider : ℚ := 1 + (r1 : ℚ) / (r2 : ℚ)
  let vout : ℚ := (sample : ℚ) * refRes
  vout * voltageDivider

/-! ## Observations on the logs -/

/-- The value `rurp_write_to_register` hands to the latch sequence on a control
write of `V` in state `s`: `V` itself, or its remapping when `HARDWARE_REVISION`
is defined. -/
def ctrlBusValue (b : Board) (s : State) (V : Nat) : Nat :=
  if b.HARDWARE_REVISION then
    b.rurp_map_ctrl_reg_to_hardware_revision (rurp_get_hardware_revision s) V
      % 2 ^ b.REGISTER_BITS
  else V

/-- The three valid register selectors. -/
def validRole (b : Board) (R : Nat) : Prop :=
  R = b.LEAST_SIGNIFICANT_BYTE ∨ R = b.MOST_SIGNIFICANT_BYTE ∨ R = b.CONTROL_REGISTER

/-- Port-B value after `PORTB |= reg` from the value `P`. -/
def portAssert (P reg : Nat) : Nat := (P ||| reg) % 256

/-- Port-B value after `PORTB |= reg; PORTB &= ~(reg)` from the value `P`. -/
def portRelease (P reg : Nat) : Nat := portAssert P reg &&& (0xFF ^^^ reg)

/-- Whether the port-B line with mask `m` is asserted in the port value `v`. -/
def lineHigh (m v : Nat) : Bool := decide (v &&& m ≠ 0)

/-- What an observer of one port-B line knows after a run of `PORTB`
assignments: the line's level (unknown before the first sample), the bus byte
seen at the pending assert edge, the number of completed assert/de-assert
pulses, and the byte latched by the most recent completed pulse. -/
structure LineScan where
  level : Option Bool
  armed : Option Nat
  count : Nat
  last : Option Nat
  deriving DecidableEq, Repr

/-- One more `PORTB` sample `e = (port value, PORTD byte)` seen by the observer
of line `m`.  A low-to-high change arms the pulse with the bus byte; a
high-to-low change after an observed assert completes the pulse, which latches
the bus byte if the bus held it at both edges. -/
def LineScan.step (m : Nat) (st : LineScan) (e : Nat × Nat) : LineScan :=
  match st.level with
  | none => { st with level := some (lineHigh m e.1) }
  | some false =>
    if lineHigh m e.1 then { st with level := some true, armed := some e.2 } else st
  | some true =>
    if lineHigh m e.1 then st
    else
      match st.armed with
      | some d0 =>
        { level := some false, armed := none, count := st.count + 1,
          last := if d0 = e.2 then some d0 else none }
      | none => { st with level := some false }

/-- The observer of line `m` run over a log of `PORTB` samples, most recent
sample first. -/
def scanLine (m : Nat) : List (Nat × Nat) → LineScan
  | [] => { level := none, armed := none, count := 0, last := none }
  | e :: older => LineScan.step m (scanLine m older) e

/-- The `PORTB` assignments made between the state `s` and the later state `t`,
most recent first. -/
def newEntries (s t : State) : List (Nat × Nat) :=
  t.portb_log.take (t.portb_log.length - s.portb_log.length)

/-- Number of completed assert/de-assert pulses on the port-B line `reg` between
the state `s` and the later state `t`: the line is observed from its level in
`s.PORTB` through every `PORTB` assignment made since. -/
def strobeCount (reg : Nat) (s t : State) : Nat :=
  (scanLine reg (newEntries s t ++ [(s.PORTB, s.PORTD)])).count

/-- Byte that was on `PORTD` during the most recent completed pulse of the
port-B line `reg` in the whole `PORTB` history of `s`, if there was one. -/
def lastLatched (reg : Nat) (s : State) : Option Nat :=
  (scanLine reg s.portb_log).last

/-- The seven `PORTB` assignments `rurp_setup` makes, most recent first: the
idle value `OUTPUT_ENABLE | CHIP_ENABLE` (with the byte `D` then on `PORTD`),
then `PORTB |= reg; PORTB &= ~(reg)` for the low address, high address and
control selectors, with bytes `0`, `0` and `cb` on `PORTD`. -/
def bootPortB (b : Board) (cb D : Nat) : List (Nat × Nat) :=
  [ (portRelease (portRelease (portRelease ((b.OUTPUT_ENABLE ||| b.CHIP_ENABLE) % 256)
        b.LEAST_SIGNIFICANT_BYTE) b.MOST_SIGNIFICANT_BYTE) b.CONTROL_REGISTER, cb),
    (portAssert (portRelease (portRelease ((b.OUTPUT_ENABLE ||| b.CHIP_ENABLE) % 256)
        b.LEAST_SIGNIFICANT_BYTE) b.MOST_SIGNIFICANT_BYTE) b.CONTROL_REGISTER, cb),
    (portRelease (portRelease ((b.OUTPUT_ENABLE ||| b.CHIP_ENABLE) % 256)
        b.LEAST_SIGNIFICANT_BYTE) b.MOST_SIGNIFICANT_BYTE, 0),
    (portAssert (portRelease ((b.OUTPUT_ENABLE ||| b.CHIP_ENABLE) % 256)
        b.LEAST_SIGNIFICANT_BYTE) b.MOST_SIGNIFICANT_BYTE, 0),
    (portRelease ((b.OUTPUT_ENABLE ||| b.CHIP_ENABLE) % 256) b.LEAST_SIGNIFICANT_BYTE, 0),
    (portAssert ((b.OUTPUT_ENABLE ||| b.CHIP_ENABLE) % 256) b.LEAST_SIGNIFICANT_BYTE, 0),
    ((b.OUTPUT_ENABLE ||| b.CHIP_ENABLE) % 256, D) ]

/-- Run a sequence of `rurp_write_to_register` calls, given as
(selector, value) pairs, first call first. -/
def runWrites (b : Board) : List (Nat × Nat) → State → State
  | [], s => s
  | (reg, data) :: ws, s => runWrites b ws (rurp_write_to_register b reg data s)

/-- The byte a control write puts on the bus for the logical value `v` when the
hardware revision in effect is `hw`: the (remapped, when `HARDWARE_REVISION` is
defined) value converted to `uint8_t` by `rurp_write_data_buffer`. -/
def ctrlLatchByte (b : Board) (hw : Int) (v : Nat) : Nat :=
  (if b.HARDWARE_REVISION then
    b.rurp_map_ctrl_reg_to_hardware_revision hw v % 2 ^ b.REGISTER_BITS
  else v) % 256

/-- The data-bus direction `rurp_set_data_as_output` establishes: every pin of
port D drives. -/
def dataBusOutput (s : State) : Prop := s.DDRD = 0xff

/-- The data-bus direction `rurp_set_data_as_input` establishes: every pin of
port D released. -/
def dataBusInput (s : State) : Prop := s.DDRD = 0x00

instance (s : State) : Decidable (dataBusOutput s) := by
  unfold dataBusOutput; infer_instance

instance (s : State) : Decidable (dataBusInput s) := by
  unfold dataBusInput; infer_instance

/-- The relation between shadows and latched bytes that the register bus
maintains: the three select lines are idle (low in `PORTB`, and seen low by
their observers), the control shadow is a `register_t` value, each address
shadow is the byte last latched on its line, and the
byte last latched on the control line is the bus byte of the control shadow,
under the revision `hwBoot` in effect during boot or under the current one. -/
def latchInv (b : Board) (hwBoot : Int) (s : State) : Prop :=
  (s.PORTB &&& b.LEAST_SIGNIFICANT_BYTE = 0
    ∧ (scanLine b.LEAST_SIGNIFICANT_BYTE s.portb_log).level = some false)
  ∧ (s.PORTB &&& b.MOST_SIGNIFICANT_BYTE = 0
    ∧ (scanLine b.MOST_SIGNIFICANT_BYTE s.portb_log).level = some false)
  ∧ (s.PORTB &&& b.CONTROL_REGISTER = 0
    ∧ (scanLine b.CONTROL_REGISTER s.portb_log).level = some false)
  ∧ s.control_register < 2 ^ b.REGISTER_BITS
  ∧ lastLatched b.LEAST_SIGNIFICANT_BYTE s = some s.lsb_address
  ∧ lastLatched b.MOST_SIGNIFICANT_BYTE s = some s.msb_address
  ∧ (lastLatched b.CONTROL_REGISTER s = some (ctrlLatchByte b hwBoot s.control_register)
    ∨ lastLatched b.CONTROL_REGISTER s
        = some (ctrlLatchByte b (rurp_get_hardware_revision s) s.control_register))

/-! ## A concrete board and state for evaluation -/

/-- Modelled from the spec: the helper `rurp_map_ctrl_reg_to_hardware_revision`
is declared in `rurp_utils.h` and defined outside this translation unit.  The
spec describes it as a pure, revision-specific translation of the control byte
before it is latched, under which the same logical control value gives
different physical bit patterns on different shield revisions.  This instance
passes the value through on revision 2 and moves bit 0 to bit 4 on the other
revisions. -/
def sample_map_ctrl_reg (hw : Int) (data : Nat) : Nat :=
  if hw = 2 then data
  else (data &&& 0xFFEE) ||| (if data &&& 0x01 = 0 then 0 else 0x10)

/-- A sample build: select lines on port-B bits 0–2, a 16-bit `register_t`,
`HARDWARE_REVISION` defined, and the remapping `sample_map_ctrl_reg`. -/
def sampleBoard : Board where
  LEAST_SIGNIFICANT_BYTE := 0x01
  MOST_SIGNIFICANT_BYTE := 0x02
  CONTROL_REGISTER := 0x04
  OUTPUT_ENABLE := 0x08
  CHIP_ENABLE := 0x10
  RW := 0x20
  P1_VPP_ENABLE := 0x08
  REVISION_0 := 0
  REVISION_1 := 1
  REVISION_2 := 2
  REGISTER_BITS := 16
  HARDWARE_REVISION := true
  rurp_map_ctrl_reg_to_hardware_revision := sample_map_ctrl_reg

/-- A state as at power-up: all globals and port registers zero, communication
mode flag set as in the global initialiser, no override configured. -/
def sampleState : State where
  lsb_address := 0
  msb_address := 0
  control_register := 0
  revision := 5
  comMode := true
  rurp_config := { hardware_revision := 0xFF, r1 := 0, r2 := 0 }
  DDRB := 0
  PORTB := 0
  DDRD := 0
  PORTD := 0
  mode_HARDWARE_REVISION_PIN := PinMode.INPUT
  mode_VOLTAGE_MEASURE_PIN := PinMode.INPUT
  serial_begun := false
  portb_log := []
  delays := []

/-- Sample probe readings and configuration for `rurp_setup`. -/
def sampleBoot : BootInputs where
  digitalRead_HARDWARE_REVISION_PIN := 1
  analogRead_VOLTAGE_MEASURE_PIN := 512
  load_config := { hardware_revision := 0xFF, r1 := 10000, r2 := 1000 }

/-! ## Basic facts about the register bus -/

theorem Board.WF.lsb_mod {b : Board} (hb : b.WF) :
    b.LEAST_SIGNIFICANT_BYTE % 256 = b.LEAST_SIGNIFICANT_BYTE :=
  Nat.mod_eq_of_lt hb.lsb_lt

theorem Board.WF.msb_mod {b : Board} (hb : b.WF) :
    b.MOST_SIGNIFICANT_BYTE % 256 = b.MOST_SIGNIFICANT_BYTE :=
  Nat.mod_eq_of_lt hb.msb_lt

theorem Board.WF.ctrl_mod {b : Board} (hb : b.WF) :
    b.CONTROL_REGISTER % 256 = b.CONTROL_REGISTER :=
  Nat.mod_eq_of_lt hb.ctrl_lt

/-- Writing the low address register: either the shadow already holds the byte
and nothing happens, or the shadow is updated and the byte latched. -/
theorem write_lsb_eq {b : Board} (hb : b.WF) (V : Nat) (s : State) :
    rurp_write_to_register b b.LEAST_SIGNIFICANT_BYTE V s =
      if s.lsb_address = V % 2 ^ b.REGISTER_BITS % 256 then s
      else rurp_write_to_register_latch b.LEAST_SIGNIFICANT_BYTE (V % 2 ^ b.REGISTER_BITS) false
        { s with lsb_address := V % 2 ^ b.REGISTER_BITS % 256 } := by
  simp [rurp_write_to_register, hb.lsb_mod]

/-- Writing the high address register. -/
theorem write_msb_eq {b : Board} (hb : b.WF) (V : Nat) (s : State) :
    rurp_write_to_register b b.MOST_SIGNIFICANT_BYTE V s =
      if s.msb_address = V % 2 ^ b.REGISTER_BITS % 256 then s
      else rurp_write_to_register_latch b.MOST_SIGNIFICANT_BYTE (V % 2 ^ b.REGISTER_BITS) false
        { s with msb_address := V % 2 ^ b.REGISTER_BITS % 256 } := by
  simp [rurp_write_to_register, hb.msb_mod, Ne.symm hb.lsb_ne_msb]

/-- Writing the control register. -/
theorem write_ctrl_eq {b : Board} (hb : b.WF) (V : Nat) (s : State) :
    rurp_write_to_register b b.CONTROL_REGISTER V s =
      if s.control_register = V % 2 ^ b.REGISTER_BITS then s
      else rurp_write_to_register_latch b.CONTROL_REGISTER
        (ctrlBusValue b s (V % 2 ^ b.REGISTER_BITS))
        (decide ((s.control_register &&& b.P1_VPP_ENABLE)
          > (V % 2 ^ b.REGISTER_BITS &&& b.P1_VPP_ENABLE)))
        { s with control_register := V % 2 ^ b.REGISTER_BITS } := by
  simp [rurp_write_to_register, hb.ctrl_mod, Ne.symm hb.lsb_ne_ctrl, Ne.symm hb.msb_ne_ctrl,
    ctrlBusValue, rurp_get_hardware_revision, rurp_get_physical_hardware_revision]

@[simp] theorem latch_lsb_address (reg data : Nat) (st : Bool) (s : State) :
    (rurp_write_to_register_latch reg data st s).lsb_address = s.lsb_address := by
  unfold rurp_write_to_register_latch rurp_write_data_buffer rurp_set_data_as_output
    write_PORTB
  cases st <;> rfl

@[simp] theorem latch_msb_address (reg data : Nat) (st : Bool) (s : State) :
    (rurp_write_to_register_latch reg data st s).msb_address = s.msb_address := by
  unfold rurp_write_to_register_latch rurp_write_data_buffer rurp_set_data_as_output
    write_PORTB
  cases st <;> rfl

@[simp] theorem latch_control_register (reg data : Nat) (st : Bool) (s : State) :
    (rurp_write_to_register_latch reg data st s).control_register = s.control_register := by
  unfold rurp_write_to_register_latch rurp_write_data_buffer rurp_set_data_as_output
    write_PORTB
  cases st <;> rfl

/-- The `PORTB` assignments of the latch sequence: the select mask is or-ed in,
then masked out, both with the data byte on `PORTD`. -/
theorem latch_portb_log (reg data : Nat) (st : Bool) (s : State) :
    (rurp_write_to_register_latch reg data st s).portb_log
      = (portRelease s.PORTB reg, data % 256)
        :: (portAssert s.PORTB reg, data % 256) :: s.portb_log := by
  unfold rurp_write_to_register_latch rurp_write_data_buffer rurp_set_data_as_output
    write_PORTB
  cases st <;> rfl

theorem latch_PORTB (reg data : Nat) (st : Bool) (s : State) :
    (rurp_write_to_register_latch reg data st s).PORTB
      = portRelease s.PORTB reg := by
  unfold rurp_write_to_register_latch rurp_write_data_buffer rurp_set_data_as_output
    write_PORTB
  cases st <;> rfl

@[simp] theorem latch_delays (reg data : Nat) (st : Bool) (s : State) :
    (rurp_write_to_register_latch reg data st s).delays
      = if st then 4 :: s.delays else s.delays := by
  unfold rurp_write_to_register_latch rurp_write_data_buffer rurp_set_data_as_output
    write_PORTB
  cases st <;> rfl

@[simp] theorem latch_rurp_config (reg data : Nat) (st : Bool) (s : State) :
    (rurp_write_to_register_latch reg data st s).rurp_config = s.rurp_config := by
  unfold rurp_write_to_register_latch rurp_write_data_buffer rurp_set_data_as_output
    write_PORTB
  cases st <;> rfl

@[simp] theorem latch_revision (reg data : Nat) (st : Bool) (s : State) :
    (rurp_write_to_register_latch reg data st s).revision = s.revision := by
  unfold rurp_write_to_register_latch rurp_write_data_buffer rurp_set_data_as_output
    write_PORTB
  cases st <;> rfl

theorem read_lsb {b : Board} (hb : b.WF) (s : State) :
    rurp_read_from_register b b.LEAST_SIGNIFICANT_BYTE s = s.lsb_address := by
  simp [rurp_read_from_register, hb.lsb_mod]

theorem read_msb {b : Board} (hb : b.WF) (s : State) :
    rurp_read_from_register b b.MOST_SIGNIFICANT_BYTE s = s.msb_address := by
  simp [rurp_read_from_register, hb.msb_mod, Ne.symm hb.lsb_ne_msb]

theorem read_ctrl {b : Board} (hb : b.WF) (s : State) :
    rurp_read_from_register b b.CONTROL_REGISTER s = s.control_register := by
  simp [rurp_read_from_register, hb.ctrl_mod, Ne.symm hb.lsb_ne_ctrl, Ne.symm hb.msb_ne_ctrl]

/-- Reducing to `register_t` and then to a byte is reducing to a byte. -/
theorem reg_mod_byte {b : Board} (hb : b.WF) (V : Nat) :
    V % 2 ^ b.REGISTER_BITS % 256 = V % 256 := by
  have h : (256 : Nat) ∣ 2 ^ b.REGISTER_BITS := by
    have : (256 : Nat) = 2 ^ 8 := by norm_num
    rw [this]
    exact pow_dvd_pow 2 hb.bits_ge
  exact Nat.mod_mod_of_dvd V h

/-- The shadows after a write of the low address register. -/
theorem write_lsb_shadows {b : Board} (hb : b.WF) (V : Nat) (s : State) :
    (rurp_write_to_register b b.LEAST_SIGNIFICANT_BYTE V s).lsb_address = V % 256
    ∧ (rurp_write_to_register b b.LEAST_SIGNIFICANT_BYTE V s).msb_address = s.msb_address
    ∧ (rurp_write_to_register b b.LEAST_SIGNIFICANT_BYTE V s).control_register
        = s.control_register := by
  rw [write_lsb_eq hb, reg_mod_byte hb]
  split
  · next h => exact ⟨h, rfl, rfl⟩
  · simp

/-- The shadows after a write of the high address register. -/
theorem write_msb_shadows {b : Board} (hb : b.WF) (V : Nat) (s : State) :
    (rurp_write_to_register b b.MOST_SIGNIFICANT_BYTE V s).lsb_address = s.lsb_address
    ∧ (rurp_write_to_register b b.MOST_SIGNIFICANT_BYTE V s).msb_address = V % 256
    ∧ (rurp_write_to_register b b.MOST_SIGNIFICANT_BYTE V s).control_register
        = s.control_register := by
  rw [write_msb_eq hb, reg_mod_byte hb]
  split
  · next h => exact ⟨rfl, h, rfl⟩
  · simp

/-- The shadows after a write of the control register. -/
theorem write_ctrl_shadows {b : Board} (hb : b.WF) (V : Nat) (s : State) :
    (rurp_write_to_register b b.CONTROL_REGISTER V s).lsb_address = s.lsb_address
    ∧ (rurp_write_to_register b b.CONTROL_REGISTER V s).msb_address = s.msb_address
    ∧ (rurp_write_to_register b b.CONTROL_REGISTER V s).control_register
        = V % 2 ^ b.REGISTER_BITS := by
  rw [write_ctrl_eq hb]
  split
  · next h => exact ⟨rfl, rfl, h⟩
  · simp

theorem sampleBoard_WF : sampleBoard.WF :=
  ⟨by decide, by decide, by decide, by decide, by decide, by decide, by decide⟩

theorem sampleBoard_Lines : sampleBoard.Lines :=
  ⟨by decide, by decide, by decide, by decide, by decide, by decide, by decide, by decide,
    by decide⟩

theorem sampleState_WF : sampleState.WF sampleBoard :=
  ⟨by decide, by decide, by decide⟩

/-- The ranges of the shadows are kept by every `rurp_write_to_register` call. -/
theorem write_preserves_WF {b : Board} (hb : b.WF) (reg V : Nat) (s : State)
    (hs : s.WF b) : (rurp_write_to_register b reg V s).WF b := by
  have h256 : ∀ n : Nat, n % 256 < 256 := fun n => Nat.mod_lt n (by norm_num)
  have hW : ∀ n : Nat, n % 2 ^ b.REGISTER_BITS < 2 ^ b.REGISTER_BITS :=
    fun n => Nat.mod_lt n (Nat.two_pow_pos _)
  by_cases h1 : reg % 256 = b.LEAST_SIGNIFICANT_BYTE
  · obtain ⟨e1, e2, e3⟩ := write_lsb_shadows hb V s
    have e : rurp_write_to_register b reg V s
        = rurp_write_to_register b b.LEAST_SIGNIFICANT_BYTE V s := by
      simp [rurp_write_to_register, h1, hb.lsb_mod]
    rw [e]
    exact ⟨by rw [e1]; exact h256 V, by rw [e2]; exact hs.msb_lt, by rw [e3]; exact hs.ctrl_lt⟩
  · by_cases h2 : reg % 256 = b.MOST_SIGNIFICANT_BYTE
    · obtain ⟨e1, e2, e3⟩ := write_msb_shadows hb V s
      have e : rurp_write_to_register b reg V s
          = rurp_write_to_register b b.MOST_SIGNIFICANT_BYTE V s := by
        simp [rurp_write_to_register, h2, hb.msb_mod]
      rw [e]
      exact ⟨by rw [e1]; exact hs.lsb_lt, by rw [e2]; exact h256 V,
        by rw [e3]; exact hs.ctrl_lt⟩
    · by_cases h3 : reg % 256 = b.CONTROL_REGISTER
      · obtain ⟨e1, e2, e3⟩ := write_ctrl_shadows hb V s
        have e : rurp_write_to_register b reg V s
            = rurp_write_to_register b b.CONTROL_REGISTER V s := by
          simp [rurp_write_to_register, h3, hb.ctrl_mod]
        rw [e]
        exact ⟨by rw [e1]; exact hs.lsb_lt, by rw [e2]; exact hs.msb_lt,
          by rw [e3]; exact hW V⟩
      · have : rurp_write_to_register b reg V s = s := by
          simp [rurp_write_to_register, h1, h2, h3]
        rw [this]
        exact hs

/-! ## C1 — read-after-write and framing of the other shadows -/

/-- C1: for every state, every valid role `R` and every `register_t` value `V`,
after `rurp_write_to_register(R, V)` the call `rurp_read_from_register(R)`
returns `V` (its low 8 bits for the two address roles), and for each other valid
role the read returns what it returned before the write; this covers the
skipped and the performed write alike. -/
theorem C1_read_after_write (b : Board) (hb : b.WF) (s : State) (R V : Nat)
    (hR : validRole b R) (hV : V < 2 ^ b.REGISTER_BITS) :
    rurp_read_from_register b R (rurp_write_to_register b R V s)
        = (if R = b.CONTROL_REGISTER then V else V % 256)
    ∧ ∀ R2, validRole b R2 → R2 ≠ R →
        rurp_read_from_register b R2 (rurp_write_to_register b R V s)
          = rurp_read_from_register b R2 s := by
  have hl := write_lsb_shadows hb V s
  have hm := write_msb_shadows hb V s
  have hc := write_ctrl_shadows hb V s
  rw [Nat.mod_eq_of_lt hV] at hc
  rcases hR with rfl | rfl | rfl
  · refine ⟨by rw [read_lsb hb, hl.1, if_neg hb.lsb_ne_ctrl], ?_⟩
    rintro R2 (rfl | rfl | rfl) hne
    · exact absurd rfl hne
    · rw [read_msb hb, read_msb hb, hl.2.1]
    · rw [read_ctrl hb, read_ctrl hb, hl.2.2]
  · refine ⟨by rw [read_msb hb, hm.2.1, if_neg hb.msb_ne_ctrl], ?_⟩
    rintro R2 (rfl | rfl | rfl) hne
    · rw [read_lsb hb, read_lsb hb, hm.1]
    · exact absurd rfl hne
    · rw [read_ctrl hb, read_ctrl hb, hm.2.2]
  · refine ⟨by rw [read_ctrl hb, hc.2.2, if_pos rfl], ?_⟩
    rintro R2 (rfl | rfl | rfl) hne
    · rw [read_lsb hb, read_lsb hb, hc.1]
    · rw [read_msb hb, read_msb hb, hc.2.1]
    · exact absurd rfl hne

/-- C1 applied on the sample board: a control write of `0x1234`. -/
theorem C1_read_after_write_witness :
    sampleBoard.WF ∧ validRole sampleBoard 0x04 ∧ 0x1234 < 2 ^ sampleBoard.REGISTER_BITS
    ∧ (rurp_read_from_register sampleBoard 0x04
          (rurp_write_to_register sampleBoard 0x04 0x1234 sampleState)
        = (if 0x04 = sampleBoard.CONTROL_REGISTER then 0x1234 else 0x1234 % 256)
      ∧ ∀ R2, validRole sampleBoard R2 → R2 ≠ 0x04 →
        rurp_read_from_register sampleBoard R2
            (rurp_write_to_register sampleBoard 0x04 0x1234 sampleState)
          = rurp_read_from_register sampleBoard R2 sampleState) :=
  ⟨sampleBoard_WF, Or.inr (Or.inr rfl), by decide,
    C1_read_after_write sampleBoard sampleBoard_WF sampleState 0x04 0x1234
      (Or.inr (Or.inr rfl)) (by decide)⟩

/-! ## C4 — a write of the current shadow value changes nothing -/

/-- C4: for every state and every valid role `R`, if `V` equals the current
shadow value of `R` then `rurp_write_to_register(R, V)` returns the state
unchanged: shadows, `PORTD`, `DDRD`, `PORTB`, the `PORTB` log and the delay log
are all as before.  The comparison uses `V` itself, whatever the board's
control-byte remapping is. -/
theorem C4_write_same_value_noop (b : Board) (hb : b.WF) (s : State) (hs : s.WF b)
    (R V : Nat) (hR : validRole b R) (hV : V = rurp_read_from_register b R s) :
    rurp_write_to_register b R V s = s := by
  rcases hR with rfl | rfl | rfl
  · rw [read_lsb hb] at hV
    rw [write_lsb_eq hb, reg_mod_byte hb, hV, Nat.mod_eq_of_lt hs.lsb_lt, if_pos rfl]
  · rw [read_msb hb] at hV
    rw [write_msb_eq hb, reg_mod_byte hb, hV, Nat.mod_eq_of_lt hs.msb_lt, if_pos rfl]
  · rw [read_ctrl hb] at hV
    rw [write_ctrl_eq hb, hV, Nat.mod_eq_of_lt hs.ctrl_lt, if_pos rfl]

/-- C4 applied on the sample board: writing `0` to the low address register of
the sample state. -/
theorem C4_write_same_value_noop_witness :
    sampleBoard.WF ∧ sampleState.WF sampleBoard ∧ validRole sampleBoard 0x01
    ∧ 0 = rurp_read_from_register sampleBoard 0x01 sampleState
    ∧ rurp_write_to_register sampleBoard 0x01 0 sampleState = sampleState :=
  ⟨sampleBoard_WF, sampleState_WF, Or.inl rfl, by decide,
    C4_write_same_value_noop sampleBoard sampleBoard_WF sampleState sampleState_WF 0x01 0
      (Or.inl rfl) (by decide)⟩

/-! ## C6 — unknown register selector -/

/-- C6: for every `uint8_t` selector that is none of the three roles, every value
and every state, `rurp_write_to_register` returns the state unchanged (no pin
activity, no strobe, no delay, no shadow change) and `rurp_read_from_register`
returns 0. -/
theorem C6_unknown_role (b : Board) (s : State) (reg V : Nat) (hreg : reg < 256)
    (hl : reg ≠ b.LEAST_SIGNIFICANT_BYTE) (hm : reg ≠ b.MOST_SIGNIFICANT_BYTE)
    (hc : reg ≠ b.CONTROL_REGISTER) :
    rurp_write_to_register b reg V s = s ∧ rurp_read_from_register b reg s = 0 := by
  simp [rurp_write_to_register, rurp_read_from_register, Nat.mod_eq_of_lt hreg, hl, hm, hc]

/-- C6 applied on the sample board with selector `0x40`. -/
theorem C6_unknown_role_witness :
    0x40 < 256 ∧ 0x40 ≠ sampleBoard.LEAST_SIGNIFICANT_BYTE
    ∧ 0x40 ≠ sampleBoard.MOST_SIGNIFICANT_BYTE ∧ 0x40 ≠ sampleBoard.CONTROL_REGISTER
    ∧ rurp_write_to_register sampleBoard 0x40 0xAB sampleState = sampleState
    ∧ rurp_read_from_register sampleBoard 0x40 sampleState = 0 :=
  ⟨by decide, by decide, by decide, by decide,
    C6_unknown_role sampleBoard sampleState 0x40 0xAB (by decide) (by decide) (by decide)
      (by decide)⟩

/-! ## C7 — revision override precedence -/

/-- C7: for every configuration record `cfg` and every boot-time detected
revision `d`: if the configured `hardware_revision` is below `0xFF`,
`rurp_get_hardware_revision` returns it whatever `d` is; if it equals `0xFF`, it
returns `d`, the value of `rurp_get_physical_hardware_revision`. -/
theorem C7_revision_override (s : State) (cfg : rurp_configuration_t) (d : Int) :
    (cfg.hardware_revision < 0xFF →
        rurp_get_hardware_revision { s with rurp_config := cfg, revision := d }
          = (cfg.hardware_revision : Int))
    ∧ (cfg.hardware_revision = 0xFF →
        rurp_get_hardware_revision { s with rurp_config := cfg, revision := d } = d
        ∧ rurp_get_physical_hardware_revision { s with rurp_config := cfg, revision := d }
            = d) := by
  constructor
  · intro h
    simp [rurp_get_hardware_revision, h]
  · intro h
    simp [rurp_get_hardware_revision, rurp_get_physical_hardware_revision, h]

/-- C7 applied with an override of 2 against a detected revision 5. -/
theorem C7_revision_override_witness :
    (2 : Nat) < 0xFF
    ∧ rurp_get_hardware_revision
        { sampleState with rurp_config := { hardware_revision := 2, r1 := 0, r2 := 0 },
                           revision := 5 } = 2 :=
  ⟨by decide, (C7_revision_override sampleState { hardware_revision := 2, r1 := 0, r2 := 0 }
    5).1 (by decide)⟩

/-! ## Port-B masks, bit by bit -/

theorem testBit_lt_256 {m : Nat} (hm : m < 256) {i : Nat} (h : m.testBit i = true) : i < 8 := by
  by_contra hge
  have hge : 8 ≤ i := Nat.le_of_not_lt hge
  have : m < 2 ^ i := lt_of_lt_of_le hm (by
    calc (256 : Nat) = 2 ^ 8 := by norm_num
      _ ≤ 2 ^ i := Nat.pow_le_pow_right (by norm_num) hge)
  rw [Nat.testBit_lt_two_pow this] at h
  exact Bool.false_ne_true h

theorem disjoint_testBit {m R : Nat} (hd : m &&& R = 0) (i : Nat) :
    (m.testBit i && R.testBit i) = false := by
  rw [← Nat.testBit_and, hd, Nat.zero_testBit]

theorem testBit_255 (i : Nat) : Nat.testBit 255 i = decide (i < 8) := by
  have : (255 : Nat) = 2 ^ 8 - 1 := by norm_num
  rw [this, Nat.testBit_two_pow_sub_one]

theorem mod256_and (x m : Nat) (hm : m < 256) : (x % 256) &&& m = x &&& m := by
  apply Nat.eq_of_testBit_eq
  intro i
  have e : (256 : Nat) = 2 ^ 8 := by norm_num
  rw [e, Nat.testBit_and, Nat.testBit_and, Nat.testBit_mod_two_pow]
  cases hmi : m.testBit i
  · simp
  · simp [testBit_lt_256 hm hmi]

theorem assert_and_self (P R : Nat) (hR : R < 256) : ((P ||| R) % 256) &&& R = R := by
  rw [mod256_and _ _ hR]
  apply Nat.eq_of_testBit_eq
  intro i
  rw [Nat.testBit_and, Nat.testBit_or]
  cases R.testBit i <;> simp

theorem assert_and_other (P R m : Nat) (hm : m < 256) (hd : m &&& R = 0) :
    ((P ||| R) % 256) &&& m = P &&& m := by
  rw [mod256_and _ _ hm]
  apply Nat.eq_of_testBit_eq
  intro i
  have h := disjoint_testBit hd i
  rw [Nat.testBit_and, Nat.testBit_and, Nat.testBit_or]
  cases hmi : m.testBit i <;> cases hRi : R.testBit i <;> simp_all

theorem deassert_and_self (X R : Nat) (hR : R < 256) : (X &&& (0xFF ^^^ R)) &&& R = 0 := by
  apply Nat.eq_of_testBit_eq
  intro i
  rw [Nat.testBit_and, Nat.testBit_and, Nat.testBit_xor, testBit_255, Nat.zero_testBit]
  cases hRi : R.testBit i
  · simp
  · simp [testBit_lt_256 hR hRi]

theorem deassert_and_other (X R m : Nat) (hm : m < 256) (hd : m &&& R = 0) :
    (X &&& (0xFF ^^^ R)) &&& m = X &&& m := by
  apply Nat.eq_of_testBit_eq
  intro i
  have h := disjoint_testBit hd i
  rw [Nat.testBit_and, Nat.testBit_and, Nat.testBit_and, Nat.testBit_xor, testBit_255]
  cases hmi : m.testBit i
  · simp
  · cases hRi : R.testBit i
    · simp [testBit_lt_256 hm hmi]
    · simp_all

theorem portAssert_and_self (P R : Nat) (hR : R < 256) : portAssert P R &&& R = R :=
  assert_and_self P R hR

theorem portAssert_and_other (P R m : Nat) (hm : m < 256) (hd : m &&& R = 0) :
    portAssert P R &&& m = P &&& m :=
  assert_and_other P R m hm hd

theorem portRelease_and_self (P R : Nat) (hR : R < 256) : portRelease P R &&& R = 0 :=
  deassert_and_self _ R hR

theorem portRelease_and_other (P R m : Nat) (hm : m < 256) (hd : m &&& R = 0) :
    portRelease P R &&& m = P &&& m := by
  unfold portRelease
  rw [deassert_and_other _ R m hm hd, portAssert_and_other P R m hm hd]

/-! ## The line observer -/

theorem lineHigh_eq_false {m v : Nat} (h : v &&& m = 0) : lineHigh m v = false := by
  simp [lineHigh, h]

theorem lineHigh_eq_true {m v : Nat} (h : v &&& m ≠ 0) : lineHigh m v = true := by
  simp [lineHigh, h]

/-- A sample with the line low leaves an observer that saw the line low as it
was. -/
theorem scan_idle (m : Nat) (l : List (Nat × Nat)) (v d : Nat)
    (h : lineHigh m v = false) (hl : (scanLine m l).level = some false) :
    scanLine m ((v, d) :: l) = scanLine m l := by
  show LineScan.step m (scanLine m l) (v, d) = scanLine m l
  unfold LineScan.step
  rw [hl]
  simp [h]

/-- After a sample with the line low the observer knows the line low. -/
theorem scan_low_level (m : Nat) (l : List (Nat × Nat)) (v d : Nat)
    (h : lineHigh m v = false) : (scanLine m ((v, d) :: l)).level = some false := by
  show (LineScan.step m (scanLine m l) (v, d)).level = some false
  unfold LineScan.step
  rcases hl : (scanLine m l).level with _ | _ | _
  · simp [h]
  · simp [h, hl]
  · rcases ha : (scanLine m l).armed with _ | d0 <;> simp [h]

/-- An assert sample followed by a de-assert sample with the same bus byte, seen
by an observer that knew the line low, is one completed pulse latching that
byte. -/
theorem scan_pulse (m : Nat) (l : List (Nat × Nat)) (v1 v2 d : Nat)
    (h1 : lineHigh m v1 = true) (h2 : lineHigh m v2 = false)
    (hl : (scanLine m l).level = some false) :
    scanLine m ((v2, d) :: (v1, d) :: l)
      = { level := some false, armed := none, count := (scanLine m l).count + 1,
          last := some d } := by
  show LineScan.step m (LineScan.step m (scanLine m l) (v1, d)) (v2, d) = _
  unfold LineScan.step
  rw [hl]
  simp [h1, h2]

/-- The pulse of the latch sequence as seen on the pulsed line. -/
theorem pulse_self (R P d : Nat) (l : List (Nat × Nat)) (hR0 : R ≠ 0) (hR : R < 256)
    (hl : (scanLine R l).level = some false) :
    scanLine R ((portRelease P R, d) :: (portAssert P R, d) :: l)
      = { level := some false, armed := none, count := (scanLine R l).count + 1,
          last := some d } := by
  apply scan_pulse _ _ _ _ _ _ _ hl
  · apply lineHigh_eq_true
    rw [portAssert_and_self P R hR]
    exact hR0
  · exact lineHigh_eq_false (portRelease_and_self P R hR)

/-- The pulse of the latch sequence as seen on another, idle line. -/
theorem pulse_other (m R P d : Nat) (l : List (Nat × Nat)) (hm : m < 256)
    (hd : m &&& R = 0) (hP : P &&& m = 0) (hl : (scanLine m l).level = some false) :
    scanLine m ((portRelease P R, d) :: (portAssert P R, d) :: l) = scanLine m l := by
  have h1 : lineHigh m (portAssert P R) = false := by
    apply lineHigh_eq_false
    rw [portAssert_and_other P R m hm hd, hP]
  have hl1 := scan_low_level m l _ d h1
  rw [scan_idle m _ _ d _ hl1, scan_idle m l _ d h1 hl]
  apply lineHigh_eq_false
  rw [portRelease_and_other P R m hm hd, hP]

theorem newEntries_append (s t : State) (n : List (Nat × Nat))
    (h : t.portb_log = n ++ s.portb_log) : newEntries s t = n := by
  unfold newEntries
  rw [h]
  simp

theorem newEntries_self (s t : State) (h : t.portb_log = s.portb_log) :
    newEntries s t = [] :=
  newEntries_append s t [] (by simpa using h)

/-- The observer of a line that has seen only the starting level. -/
theorem scan_start (m P D : Nat) :
    scanLine m [(P, D)]
      = { level := some (lineHigh m P), armed := none, count := 0, last := none } := rfl

/-- No `PORTB` assignment, no pulse. -/
theorem strobeCount_unchanged (R : Nat) (s t : State) (h : t.portb_log = s.portb_log) :
    strobeCount R s t = 0 := by
  unfold strobeCount
  rw [newEntries_self s t h]
  rfl

/-- Pulses on the line `R` made by the latch sequence for `R`, run from a state
`t` with the port and log of `s`: one when the line was low, none (a bare
falling edge) when it was already high. -/
theorem strobeCount_latch (R data : Nat) (st : Bool) (s t : State)
    (hlog : t.portb_log = s.portb_log) (hP : t.PORTB = s.PORTB)
    (hR0 : R ≠ 0) (hR : R < 256) :
    strobeCount R s (rurp_write_to_register_latch R data st t)
      = if lineHigh R s.PORTB then 0 else 1 := by
  unfold strobeCount
  rw [newEntries_append s _ [(portRelease t.PORTB R, data % 256),
    (portAssert t.PORTB R, data % 256)] (by rw [latch_portb_log, hlog]; rfl)]
  rw [hP]
  show (scanLine R ((portRelease s.PORTB R, data % 256)
    :: (portAssert s.PORTB R, data % 256) :: [(s.PORTB, s.PORTD)])).count = _
  cases hlv : lineHigh R s.PORTB
  · rw [pulse_self R s.PORTB _ _ hR0 hR (by rw [scan_start, hlv])]
    simp [scan_start]
  · have h1 : lineHigh R (portAssert s.PORTB R) = true := by
      apply lineHigh_eq_true
      rw [portAssert_and_self _ R hR]
      exact hR0
    have h2 : lineHigh R (portRelease s.PORTB R) = false :=
      lineHigh_eq_false (portRelease_and_self _ R hR)
    show (LineScan.step R (LineScan.step R (scanLine R [(s.PORTB, s.PORTD)]) _) _).count = _
    rw [scan_start]
    simp [LineScan.step, hlv, h1, h2]

/-! ## C3 — two successive writes of the same value -/

/-- Repeating a write is a no-op: the second call returns its input state. -/
theorem write_twice {b : Board} (hb : b.WF) (R V : Nat) (hR : validRole b R) (s : State) :
    rurp_write_to_register b R V (rurp_write_to_register b R V s)
      = rurp_write_to_register b R V s := by
  rcases hR with rfl | rfl | rfl
  · have h := (write_lsb_shadows hb V s).1
    rw [write_lsb_eq hb V (rurp_write_to_register b _ V s), reg_mod_byte hb, if_pos h]
  · have h := (write_msb_shadows hb V s).2.1
    rw [write_msb_eq hb V (rurp_write_to_register b _ V s), reg_mod_byte hb, if_pos h]
  · have h := (write_ctrl_shadows hb V s).2.2
    rw [write_ctrl_eq hb V (rurp_write_to_register b _ V s), if_pos h]

/-- Pulses on the line `R` made by one write to `R`: none when the shadow already
holds the value (no `PORTB` assignment is made), one when it does not and the
line is low, none when it does not and the line is already high. -/
theorem strobeCount_write {b : Board} (hb : b.WF) (R V : Nat) (hR : validRole b R)
    (hV : V < 2 ^ b.REGISTER_BITS) (hR0 : R ≠ 0) (s : State) :
    strobeCount R s (rurp_write_to_register b R V s)
      = (if rurp_read_from_register b R s = (if R = b.CONTROL_REGISTER then V else V % 256)
          then 0 else if lineHigh R s.PORTB then 0 else 1) := by
  rcases hR with rfl | rfl | rfl
  · rw [write_lsb_eq hb, reg_mod_byte hb, read_lsb hb, if_neg hb.lsb_ne_ctrl]
    split
    · exact strobeCount_unchanged _ s s rfl
    · exact strobeCount_latch _ _ _ s _ rfl rfl hR0 hb.lsb_lt
  · rw [write_msb_eq hb, reg_mod_byte hb, read_msb hb, if_neg hb.msb_ne_ctrl]
    split
    · exact strobeCount_unchanged _ s s rfl
    · exact strobeCount_latch _ _ _ s _ rfl rfl hR0 hb.msb_lt
  · rw [write_ctrl_eq hb, Nat.mod_eq_of_lt hV, read_ctrl hb, if_pos rfl]
    split
    · exact strobeCount_unchanged _ s s rfl
    · exact strobeCount_latch _ _ _ s _ rfl rfl hR0 hb.ctrl_lt

/-- C3 as stated fails: on the sample board, from the sample state (low address
shadow already 0, select line low), two successive writes of 0 to the low
address register make no `PORTB` assignment and so no pulse on its select line,
not one. -/
theorem C3_counterexample :
    (rurp_write_to_register sampleBoard sampleBoard.LEAST_SIGNIFICANT_BYTE 0
        (rurp_write_to_register sampleBoard sampleBoard.LEAST_SIGNIFICANT_BYTE 0
          sampleState)).portb_log = sampleState.portb_log
    ∧ strobeCount sampleBoard.LEAST_SIGNIFICANT_BYTE sampleState
          (rurp_write_to_register sampleBoard sampleBoard.LEAST_SIGNIFICANT_BYTE 0
            (rurp_write_to_register sampleBoard sampleBoard.LEAST_SIGNIFICANT_BYTE 0
              sampleState)) = 0
    ∧ ¬ (strobeCount sampleBoard.LEAST_SIGNIFICANT_BYTE sampleState
          (rurp_write_to_register sampleBoard sampleBoard.LEAST_SIGNIFICANT_BYTE 0
            (rurp_write_to_register sampleBoard sampleBoard.LEAST_SIGNIFICANT_BYTE 0
              sampleState)) = 1) := by
  decide

/-- C3 (amended): for every valid role `R` (a nonzero port-B mask), `register_t`
value `V` and starting state, in two successive calls
`rurp_write_to_register(R, V)` the second call is a no-op, and over the two
calls together the `R` line of `PORTB` sees exactly one completed
assert/de-assert pulse when the shadow of `R` differed from `V` (from its low 8
bits for the address roles) and the line was low before the first call; it sees
none when the shadow already held the value, and none (only a falling edge) when
the line was already high. -/
theorem C3_two_writes_at_most_one_strobe (b : Board) (hb : b.WF) (s : State) (R V : Nat)
    (hR : validRole b R) (hV : V < 2 ^ b.REGISTER_BITS) (hR0 : R ≠ 0) :
    rurp_write_to_register b R V (rurp_write_to_register b R V s)
        = rurp_write_to_register b R V s
    ∧ strobeCount R s (rurp_write_to_register b R V (rurp_write_to_register b R V s))
        = (if rurp_read_from_register b R s = (if R = b.CONTROL_REGISTER then V else V % 256)
            then 0 else if lineHigh R s.PORTB then 0 else 1) := by
  refine ⟨write_twice hb R V hR s, ?_⟩
  rw [write_twice hb R V hR s, strobeCount_write hb R V hR hV hR0 s]

/-- C3 (amended) applied on the sample board: two control writes of `0x09` from
the sample state, whose control line is low, make exactly one pulse. -/
theorem C3_two_writes_at_most_one_strobe_witness :
    sampleBoard.WF ∧ validRole sampleBoard 0x04 ∧ 0x09 < 2 ^ sampleBoard.REGISTER_BITS
    ∧ 0x04 ≠ 0
    ∧ rurp_write_to_register sampleBoard 0x04 0x09
          (rurp_write_to_register sampleBoard 0x04 0x09 sampleState)
        = rurp_write_to_register sampleBoard 0x04 0x09 sampleState
    ∧ strobeCount 0x04 sampleState (rurp_write_to_register sampleBoard 0x04 0x09
          (rurp_write_to_register sampleBoard 0x04 0x09 sampleState)) = 1 :=
  ⟨sampleBoard_WF, Or.inr (Or.inr rfl), by decide, by decide,
    (C3_two_writes_at_most_one_strobe sampleBoard sampleBoard_WF sampleState 0x04 0x09
      (Or.inr (Or.inr rfl)) (by decide) (by decide)).1,
    (C3_two_writes_at_most_one_strobe sampleBoard sampleBoard_WF sampleState 0x04 0x09
      (Or.inr (Or.inr rfl)) (by decide) (by decide)).2.trans (by decide)⟩

/-! ## C5 — settle delay on a falling high-voltage-enable bit -/

/-- For a single-bit mask, one masked value exceeds another exactly when the bit
is set in the first and clear in the second. -/
theorem mask_gt_iff (A B k : Nat) :
    (A &&& 2 ^ k) > (B &&& 2 ^ k) ↔ (A &&& 2 ^ k ≠ 0 ∧ B &&& 2 ^ k = 0) := by
  have hpos : 0 < 2 ^ k := Nat.two_pow_pos k
  rw [Nat.and_two_pow, Nat.and_two_pow]
  cases A.testBit k <;> cases B.testBit k <;> simp [Bool.toNat]

/-- C5: for every starting state and every pair of control values `A`, `B`, when
`rurp_write_to_register(CONTROL_REGISTER, A)` is followed by
`rurp_write_to_register(CONTROL_REGISTER, B)`, the second write takes the
settle delay (`delayMicroseconds(4)`) if and only if `A` has the
`P1_VPP_ENABLE` bit set and `B` has it cleared; otherwise it takes no delay. -/
theorem C5_settle_delay_iff (b : Board) (hb : b.WF) (k : Nat)
    (hP : b.P1_VPP_ENABLE = 2 ^ k) (s : State) (A B : Nat)
    (hA : A < 2 ^ b.REGISTER_BITS) (hB : B < 2 ^ b.REGISTER_BITS) :
    ((rurp_write_to_register b b.CONTROL_REGISTER B
          (rurp_write_to_register b b.CONTROL_REGISTER A s)).delays
        = 4 :: (rurp_write_to_register b b.CONTROL_REGISTER A s).delays
      ↔ (A &&& b.P1_VPP_ENABLE ≠ 0 ∧ B &&& b.P1_VPP_ENABLE = 0))
    ∧ ((rurp_write_to_register b b.CONTROL_REGISTER B
          (rurp_write_to_register b b.CONTROL_REGISTER A s)).delays
        = (rurp_write_to_register b b.CONTROL_REGISTER A s).delays
      ↔ ¬ (A &&& b.P1_VPP_ENABLE ≠ 0 ∧ B &&& b.P1_VPP_ENABLE = 0)) := by
  have h1 := (write_ctrl_shadows hb A s).2.2
  rw [Nat.mod_eq_of_lt hA] at h1
  generalize rurp_write_to_register b b.CONTROL_REGISTER A s = s1 at h1
  rw [write_ctrl_eq hb B s1, Nat.mod_eq_of_lt hB, h1, hP]
  have hne : ∀ l : List Nat, 4 :: l ≠ l := fun l h => by
    have := congrArg List.length h
    simp at this
  by_cases hAB : A = B
  · subst hAB
    rw [if_pos rfl]
    have hc : ¬ (A &&& 2 ^ k ≠ 0 ∧ A &&& 2 ^ k = 0) := fun h => h.1 h.2
    constructor
    · exact ⟨fun h => absurd h.symm (hne _), fun h => absurd h hc⟩
    · exact ⟨fun _ => hc, fun _ => rfl⟩
  · rw [if_neg hAB, latch_delays]
    by_cases hg : (A &&& 2 ^ k) > (B &&& 2 ^ k)
    · have hc := (mask_gt_iff A B k).1 hg
      rw [decide_eq_true hg, if_pos rfl]
      constructor
      · exact ⟨fun _ => hc, fun _ => rfl⟩
      · exact ⟨fun h => absurd h (hne _), fun h => absurd hc h⟩
    · have hc : ¬ (A &&& 2 ^ k ≠ 0 ∧ B &&& 2 ^ k = 0) := fun h => hg ((mask_gt_iff A B k).2 h)
      rw [decide_eq_false hg, if_neg Bool.false_ne_true]
      constructor
      · exact ⟨fun h => absurd h.symm (hne _), fun h => absurd h hc⟩
      · exact ⟨fun _ => hc, fun _ => rfl⟩

/-- C5 applied on the sample board (`P1_VPP_ENABLE = 2 ^ 3`): control value
`0x09` followed by `0x01`. -/
theorem C5_settle_delay_iff_witness :
    sampleBoard.WF ∧ sampleBoard.P1_VPP_ENABLE = 2 ^ 3
    ∧ 0x09 < 2 ^ sampleBoard.REGISTER_BITS ∧ 0x01 < 2 ^ sampleBoard.REGISTER_BITS
    ∧ (rurp_write_to_register sampleBoard sampleBoard.CONTROL_REGISTER 0x01
          (rurp_write_to_register sampleBoard sampleBoard.CONTROL_REGISTER 0x09
            sampleState)).delays
        = 4 :: (rurp_write_to_register sampleBoard sampleBoard.CONTROL_REGISTER 0x09
            sampleState).delays :=
  ⟨sampleBoard_WF, by decide, by decide, by decide,
    (C5_settle_delay_iff sampleBoard sampleBoard_WF 3 (by decide) sampleState 0x09 0x01
      (by decide) (by decide)).1.2 ⟨by decide, by decide⟩⟩

/-! ## C9 — boot initialisation -/

theorem byte_ff_mod {b : Board} (hb : b.WF) : 0xff % 2 ^ b.REGISTER_BITS = 0xff := by
  apply Nat.mod_eq_of_lt
  calc (0xff : Nat) < 2 ^ 8 := by norm_num
    _ ≤ 2 ^ b.REGISTER_BITS := Nat.pow_le_pow_right (by norm_num) hb.bits_ge

/-- The three boot writes, from a state whose shadows hold the sentinel: none is
skipped, all three shadows end at zero, and `PORTB` is assigned six times. -/
theorem boot_writes {b : Board} (hb : b.WF) (s : State)
    (hl : s.lsb_address = 0xff) (hm : s.msb_address = 0xff)
    (hc : s.control_register = 0xff % 2 ^ b.REGISTER_BITS) :
    let s3 := rurp_write_to_register b b.CONTROL_REGISTER 0x00
      (rurp_write_to_register b b.MOST_SIGNIFICANT_BYTE 0x00
        (rurp_write_to_register b b.LEAST_SIGNIFICANT_BYTE 0x00 s))
    s3.lsb_address = 0 ∧ s3.msb_address = 0 ∧ s3.control_register = 0
    ∧ s3.portb_log
        = (portRelease (portRelease (portRelease s.PORTB b.LEAST_SIGNIFICANT_BYTE)
              b.MOST_SIGNIFICANT_BYTE) b.CONTROL_REGISTER,
            ctrlLatchByte b (rurp_get_hardware_revision s) 0)
          :: (portAssert (portRelease (portRelease s.PORTB b.LEAST_SIGNIFICANT_BYTE)
              b.MOST_SIGNIFICANT_BYTE) b.CONTROL_REGISTER,
            ctrlLatchByte b (rurp_get_hardware_revision s) 0)
          :: (portRelease (portRelease s.PORTB b.LEAST_SIGNIFICANT_BYTE)
              b.MOST_SIGNIFICANT_BYTE, 0)
          :: (portAssert (portRelease s.PORTB b.LEAST_SIGNIFICANT_BYTE)
              b.MOST_SIGNIFICANT_BYTE, 0)
          :: (portRelease s.PORTB b.LEAST_SIGNIFICANT_BYTE, 0)
          :: (portAssert s.PORTB b.LEAST_SIGNIFICANT_BYTE, 0) :: s.portb_log
    ∧ s3.PORTB = portRelease (portRelease (portRelease s.PORTB b.LEAST_SIGNIFICANT_BYTE)
        b.MOST_SIGNIFICANT_BYTE) b.CONTROL_REGISTER
    ∧ s3.rurp_config = s.rurp_config ∧ s3.revision = s.revision := by
  intro s3
  have e1 : rurp_write_to_register b b.LEAST_SIGNIFICANT_BYTE 0x00 s
      = rurp_write_to_register_latch b.LEAST_SIGNIFICANT_BYTE 0 false
          { s with lsb_address := 0 } := by
    rw [write_lsb_eq hb]; simp [hl]
  have e2 : ∀ t : State, t.msb_address = 0xff →
      rurp_write_to_register b b.MOST_SIGNIFICANT_BYTE 0x00 t
      = rurp_write_to_register_latch b.MOST_SIGNIFICANT_BYTE 0 false
          { t with msb_address := 0 } := by
    intro t ht
    rw [write_msb_eq hb]; simp [ht]
  have e3 : ∀ t : State, t.control_register = 0xff % 2 ^ b.REGISTER_BITS →
      rurp_write_to_register b b.CONTROL_REGISTER 0x00 t
      = rurp_write_to_register_latch b.CONTROL_REGISTER (ctrlBusValue b t 0)
          (decide ((t.control_register &&& b.P1_VPP_ENABLE) > (0 &&& b.P1_VPP_ENABLE)))
          { t with control_register := 0 } := by
    intro t ht
    rw [write_ctrl_eq hb]
    rw [byte_ff_mod hb] at ht
    simp [ht]
  unfold s3
  rw [e1, e2 _ (by simp [hm]), e3 _ (by simp [hc])]
  simp [latch_portb_log, latch_PORTB, ctrlBusValue, ctrlLatchByte, rurp_get_hardware_revision,
    rurp_get_physical_hardware_revision]

theorem setup_init_shadows (b : Board) (i : BootInputs) (s : State) :
    (rurp_setup_init b i s).lsb_address = 0xff
    ∧ (rurp_setup_init b i s).msb_address = 0xff
    ∧ (rurp_setup_init b i s).control_register = 0xff % 2 ^ b.REGISTER_BITS
    ∧ (rurp_setup_init b i s).portb_log
        = ((b.OUTPUT_ENABLE ||| b.CHIP_ENABLE) % 256, s.PORTD) :: s.portb_log
    ∧ (rurp_setup_init b i s).PORTB = (b.OUTPUT_ENABLE ||| b.CHIP_ENABLE) % 256 := by
  unfold rurp_setup_init rurp_set_data_as_output write_PORTB
  by_cases h1 : i.digitalRead_HARDWARE_REVISION_PIN = 1
  · simp [h1]
  · by_cases h0 : i.digitalRead_HARDWARE_REVISION_PIN = 0
    · simp [h0]
    · simp [h1, h0]

/-- The state `rurp_setup` returns: zero shadows, and exactly seven `PORTB`
assignments on top of the earlier log: the idle value `OUTPUT_ENABLE |
CHIP_ENABLE`, then an assert/de-assert pair for each role. -/
theorem setup_result {b : Board} (hb : b.WF) (i : BootInputs) (s : State) :
    (rurp_setup b i s).lsb_address = 0 ∧ (rurp_setup b i s).msb_address = 0
    ∧ (rurp_setup b i s).control_register = 0
    ∧ (rurp_setup b i s).portb_log
        = bootPortB b (ctrlLatchByte b (rurp_get_hardware_revision (rurp_setup_init b i s)) 0)
            s.PORTD ++ s.portb_log
    ∧ (rurp_setup b i s).PORTB
        = portRelease (portRelease (portRelease ((b.OUTPUT_ENABLE ||| b.CHIP_ENABLE) % 256)
            b.LEAST_SIGNIFICANT_BYTE) b.MOST_SIGNIFICANT_BYTE) b.CONTROL_REGISTER
    ∧ (rurp_setup b i s).rurp_config = i.load_config := by
  obtain ⟨hl, hm, hc, hlog, hP⟩ := setup_init_shadows b i s
  obtain ⟨h1, h2, h3, h4, h5, -, -⟩ := boot_writes hb (rurp_setup_init b i s) hl hm hc
  rw [hlog, hP] at h4
  rw [hP] at h5
  unfold rurp_setup rurp_set_communication_mode
  exact ⟨h1, h2, h3, h4, h5, rfl⟩

/-- The idle port value `OUTPUT_ENABLE | CHIP_ENABLE` has a select line low. -/
theorem idle_and {b : Board} (m : Nat) (hm : m < 256)
    (h : (b.OUTPUT_ENABLE ||| b.CHIP_ENABLE) &&& m = 0) :
    ((b.OUTPUT_ENABLE ||| b.CHIP_ENABLE) % 256) &&& m = 0 := by
  rw [mod256_and _ _ hm, h]

/-- The three observers over the seven boot assignments, on top of any earlier
samples `l`: each line is low before its pulse, sees exactly one completed pulse
and ends low, with the written byte latched. -/
theorem boot_scan {b : Board} (hb : b.WF) (hL : b.Lines) (D cb : Nat)
    (l : List (Nat × Nat)) :
    scanLine b.LEAST_SIGNIFICANT_BYTE (bootPortB b cb D ++ l)
      = { level := some false, armed := none,
          count := (scanLine b.LEAST_SIGNIFICANT_BYTE
            (((b.OUTPUT_ENABLE ||| b.CHIP_ENABLE) % 256, D) :: l)).count + 1,
          last := some 0 }
    ∧ scanLine b.MOST_SIGNIFICANT_BYTE (bootPortB b cb D ++ l)
      = { level := some false, armed := none,
          count := (scanLine b.MOST_SIGNIFICANT_BYTE
            (((b.OUTPUT_ENABLE ||| b.CHIP_ENABLE) % 256, D) :: l)).count + 1,
          last := some 0 }
    ∧ scanLine b.CONTROL_REGISTER (bootPortB b cb D ++ l)
      = { level := some false, armed := none,
          count := (scanLine b.CONTROL_REGISTER
            (((b.OUTPUT_ENABLE ||| b.CHIP_ENABLE) % 256, D) :: l)).count + 1,
          last := some cb } := by
  simp only [bootPortB, List.cons_append, List.nil_append]
  generalize hP0 : (b.OUTPUT_ENABLE ||| b.CHIP_ENABLE) % 256 = P0
  have iL : P0 &&& b.LEAST_SIGNIFICANT_BYTE = 0 := by
    rw [← hP0]; exact idle_and _ hb.lsb_lt hL.idle_lsb
  have iM : P0 &&& b.MOST_SIGNIFICANT_BYTE = 0 := by
    rw [← hP0]; exact idle_and _ hb.msb_lt hL.idle_msb
  have iC : P0 &&& b.CONTROL_REGISTER = 0 := by
    rw [← hP0]; exact idle_and _ hb.ctrl_lt hL.idle_ctrl
  have dML : b.MOST_SIGNIFICANT_BYTE &&& b.LEAST_SIGNIFICANT_BYTE = 0 := by
    rw [Nat.and_comm]; exact hL.lsb_msb
  have dCL : b.CONTROL_REGISTER &&& b.LEAST_SIGNIFICANT_BYTE = 0 := by
    rw [Nat.and_comm]; exact hL.lsb_ctrl
  have dCM : b.CONTROL_REGISTER &&& b.MOST_SIGNIFICANT_BYTE = 0 := by
    rw [Nat.and_comm]; exact hL.msb_ctrl
  refine ⟨?_, ?_, ?_⟩
  · have h0 := scan_low_level b.LEAST_SIGNIFICANT_BYTE l P0 D (lineHigh_eq_false iL)
    have hA := pulse_self b.LEAST_SIGNIFICANT_BYTE P0 0 _ hL.lsb_ne_zero hb.lsb_lt h0
    have pA : portRelease P0 b.LEAST_SIGNIFICANT_BYTE &&& b.LEAST_SIGNIFICANT_BYTE = 0 :=
      portRelease_and_self _ _ hb.lsb_lt
    have hB := pulse_other b.LEAST_SIGNIFICANT_BYTE b.MOST_SIGNIFICANT_BYTE
      (portRelease P0 b.LEAST_SIGNIFICANT_BYTE) 0 _ hb.lsb_lt hL.lsb_msb pA (by rw [hA])
    have pB : portRelease (portRelease P0 b.LEAST_SIGNIFICANT_BYTE) b.MOST_SIGNIFICANT_BYTE
        &&& b.LEAST_SIGNIFICANT_BYTE = 0 := by
      rw [portRelease_and_other _ _ _ hb.lsb_lt hL.lsb_msb, pA]
    rw [pulse_other b.LEAST_SIGNIFICANT_BYTE b.CONTROL_REGISTER _ cb _ hb.lsb_lt hL.lsb_ctrl pB
      (by rw [hB, hA]), hB, hA]
  · have h0 := scan_low_level b.MOST_SIGNIFICANT_BYTE l P0 D (lineHigh_eq_false iM)
    have hA := pulse_other b.MOST_SIGNIFICANT_BYTE b.LEAST_SIGNIFICANT_BYTE P0 0 _
      hb.msb_lt dML iM h0
    have pA : portRelease P0 b.LEAST_SIGNIFICANT_BYTE &&& b.MOST_SIGNIFICANT_BYTE = 0 := by
      rw [portRelease_and_other _ _ _ hb.msb_lt dML, iM]
    have hB := pulse_self b.MOST_SIGNIFICANT_BYTE (portRelease P0 b.LEAST_SIGNIFICANT_BYTE) 0 _
      hL.msb_ne_zero hb.msb_lt (by rw [hA]; exact h0)
    have pB : portRelease (portRelease P0 b.LEAST_SIGNIFICANT_BYTE) b.MOST_SIGNIFICANT_BYTE
        &&& b.MOST_SIGNIFICANT_BYTE = 0 := portRelease_and_self _ _ hb.msb_lt
    rw [pulse_other b.MOST_SIGNIFICANT_BYTE b.CONTROL_REGISTER _ cb _ hb.msb_lt hL.msb_ctrl pB
      (by rw [hB]), hB, hA]
  · have h0 := scan_low_level b.CONTROL_REGISTER l P0 D (lineHigh_eq_false iC)
    have hA := pulse_other b.CONTROL_REGISTER b.LEAST_SIGNIFICANT_BYTE P0 0 _
      hb.ctrl_lt dCL iC h0
    have pA : portRelease P0 b.LEAST_SIGNIFICANT_BYTE &&& b.CONTROL_REGISTER = 0 := by
      rw [portRelease_and_other _ _ _ hb.ctrl_lt dCL, iC]
    have hB := pulse_other b.CONTROL_REGISTER b.MOST_SIGNIFICANT_BYTE
      (portRelease P0 b.LEAST_SIGNIFICANT_BYTE) 0 _ hb.ctrl_lt dCM pA (by rw [hA]; exact h0)
    have pB : portRelease (portRelease P0 b.LEAST_SIGNIFICANT_BYTE) b.MOST_SIGNIFICANT_BYTE
        &&& b.CONTROL_REGISTER = 0 := by
      rw [portRelease_and_other _ _ _ hb.ctrl_lt dCM, pA]
    rw [pulse_self b.CONTROL_REGISTER _ cb _ hL.ctrl_ne_zero hb.ctrl_lt
      (by rw [hB, hA]; exact h0), hB, hA]

/-- An observer that has seen a starting level and then the line low has
counted no pulse. -/
theorem scan_idle_start (m P0 D P D2 : Nat) (h : lineHigh m P0 = false) :
    (scanLine m [(P0, D), (P, D2)]).count = 0 := by
  show (LineScan.step m (scanLine m [(P, D2)]) (P0, D)).count = 0
  rw [scan_start]
  cases hP : lineHigh m P <;> simp [LineScan.step, h]

/-- C9: from any prior state, `rurp_setup` sets the three shadows to the
sentinel `0xFF` (the state `rurp_setup_init`, lines 39–69) and then
force-writes `0x00` to each role exactly once: `PORTB` is assigned the idle
value and then an assert/de-assert pair per role, so that each of the three
select lines of `PORTB` sees exactly one completed pulse (none of the three
writes is skipped), and on return `rurp_read_from_register` gives `0x00` for the
low address, high address and control roles. -/
theorem C9_boot_initialisation (b : Board) (hb : b.WF) (hL : b.Lines) (i : BootInputs)
    (s : State) :
    ((rurp_setup_init b i s).lsb_address = 0xff
      ∧ (rurp_setup_init b i s).msb_address = 0xff
      ∧ (rurp_setup_init b i s).control_register = 0xff)
    ∧ (∃ c, (rurp_setup b i s).portb_log = bootPortB b c s.PORTD ++ s.portb_log)
    ∧ strobeCount b.LEAST_SIGNIFICANT_BYTE s (rurp_setup b i s) = 1
    ∧ strobeCount b.MOST_SIGNIFICANT_BYTE s (rurp_setup b i s) = 1
    ∧ strobeCount b.CONTROL_REGISTER s (rurp_setup b i s) = 1
    ∧ rurp_read_from_register b b.LEAST_SIGNIFICANT_BYTE (rurp_setup b i s) = 0x00
    ∧ rurp_read_from_register b b.MOST_SIGNIFICANT_BYTE (rurp_setup b i s) = 0x00
    ∧ rurp_read_from_register b b.CONTROL_REGISTER (rurp_setup b i s) = 0x00 := by
  obtain ⟨h1, h2, h3, h4, -, -⟩ := setup_result hb i s
  obtain ⟨g1, g2, g3, -, -⟩ := setup_init_shadows b i s
  rw [byte_ff_mod hb] at g3
  obtain ⟨sL, sM, sC⟩ := boot_scan hb hL s.PORTD
    (ctrlLatchByte b (rurp_get_hardware_revision (rurp_setup_init b i s)) 0)
    [(s.PORTB, s.PORTD)]
  have iL := idle_and (b := b) _ hb.lsb_lt hL.idle_lsb
  have iM := idle_and (b := b) _ hb.msb_lt hL.idle_msb
  have iC := idle_and (b := b) _ hb.ctrl_lt hL.idle_ctrl
  refine ⟨⟨g1, g2, g3⟩, ⟨_, h4⟩, ?_, ?_, ?_, ?_, ?_, ?_⟩
  · unfold strobeCount
    rw [newEntries_append s _ _ h4, sL, scan_idle_start _ _ _ _ _ (lineHigh_eq_false iL)]
  · unfold strobeCount
    rw [newEntries_append s _ _ h4, sM, scan_idle_start _ _ _ _ _ (lineHigh_eq_false iM)]
  · unfold strobeCount
    rw [newEntries_append s _ _ h4, sC, scan_idle_start _ _ _ _ _ (lineHigh_eq_false iC)]
  · rw [read_lsb hb, h1]
  · rw [read_msb hb, h2]
  · rw [read_ctrl hb, h3]

/-- C9 applied on the sample board, boot inputs and power-up state. -/
theorem C9_boot_initialisation_witness :
    sampleBoard.WF ∧ sampleBoard.Lines
    ∧ strobeCount sampleBoard.LEAST_SIGNIFICANT_BYTE sampleState
        (rurp_setup sampleBoard sampleBoot sampleState) = 1
    ∧ strobeCount sampleBoard.MOST_SIGNIFICANT_BYTE sampleState
        (rurp_setup sampleBoard sampleBoot sampleState) = 1
    ∧ strobeCount sampleBoard.CONTROL_REGISTER sampleState
        (rurp_setup sampleBoard sampleBoot sampleState) = 1
    ∧ rurp_read_from_register sampleBoard sampleBoard.LEAST_SIGNIFICANT_BYTE
        (rurp_setup sampleBoard sampleBoot sampleState) = 0x00
    ∧ rurp_read_from_register sampleBoard sampleBoard.MOST_SIGNIFICANT_BYTE
        (rurp_setup sampleBoard sampleBoot sampleState) = 0x00
    ∧ rurp_read_from_register sampleBoard sampleBoard.CONTROL_REGISTER
        (rurp_setup sampleBoard sampleBoot sampleState) = 0x00 :=
  ⟨sampleBoard_WF, sampleBoard_Lines,
    (C9_boot_initialisation sampleBoard sampleBoard_WF sampleBoard_Lines sampleBoot
      sampleState).2.2⟩

/-! ## C2 — shadows against the bytes last latched -/

theorem hw_latch (reg data : Nat) (st : Bool) (s : State) :
    rurp_get_hardware_revision (rurp_write_to_register_latch reg data st s)
      = rurp_get_hardware_revision s := by
  simp [rurp_get_hardware_revision, rurp_get_physical_hardware_revision]

/-- Only the selector's low byte matters to `rurp_write_to_register`. -/
theorem write_reg_mod (b : Board) (reg V : Nat) (s : State) :
    rurp_write_to_register b reg V s = rurp_write_to_register b (reg % 256) V s := by
  simp [rurp_write_to_register, Nat.mod_mod]

/-- The latch sequence on its own line, which was idle: the line is pulsed once,
ends low, and the data byte is the byte last latched. -/
theorem latch_line_self (R data : Nat) (st : Bool) (s : State) (hR0 : R ≠ 0) (hR : R < 256)
    (hl : (scanLine R s.portb_log).level = some false) :
    ((rurp_write_to_register_latch R data st s).PORTB &&& R = 0
      ∧ (scanLine R (rurp_write_to_register_latch R data st s).portb_log).level = some false)
    ∧ lastLatched R (rurp_write_to_register_latch R data st s) = some (data % 256) := by
  unfold lastLatched
  rw [latch_PORTB, latch_portb_log, pulse_self R s.PORTB _ _ hR0 hR hl]
  exact ⟨⟨portRelease_and_self _ _ hR, rfl⟩, rfl⟩

/-- The latch sequence as seen on another idle line: nothing happens there. -/
theorem latch_line_other (m R data : Nat) (st : Bool) (s : State) (hm : m < 256)
    (hd : m &&& R = 0) (hP : s.PORTB &&& m = 0)
    (hl : (scanLine m s.portb_log).level = some false) :
    ((rurp_write_to_register_latch R data st s).PORTB &&& m = 0
      ∧ (scanLine m (rurp_write_to_register_latch R data st s).portb_log).level = some false)
    ∧ lastLatched m (rurp_write_to_register_latch R data st s) = lastLatched m s := by
  unfold lastLatched
  rw [latch_PORTB, latch_portb_log, pulse_other m R s.PORTB _ _ hm hd hP hl,
    portRelease_and_other _ _ _ hm hd]
  exact ⟨⟨hP, hl⟩, rfl⟩

/-- Every `rurp_write_to_register` call preserves `latchInv`. -/
theorem write_preserves_latchInv {b : Board} (hb : b.WF) (hL : b.Lines) (hw : Int)
    (reg V : Nat) (s : State) (h : latchInv b hw s) :
    latchInv b hw (rurp_write_to_register b reg V s) := by
  obtain ⟨⟨pL, lL⟩, ⟨pM, lM⟩, ⟨pC, lC⟩, hr, hl, hm, hc⟩ := h
  have dML : b.MOST_SIGNIFICANT_BYTE &&& b.LEAST_SIGNIFICANT_BYTE = 0 := by
    rw [Nat.and_comm]; exact hL.lsb_msb
  have dCL : b.CONTROL_REGISTER &&& b.LEAST_SIGNIFICANT_BYTE = 0 := by
    rw [Nat.and_comm]; exact hL.lsb_ctrl
  have dCM : b.CONTROL_REGISTER &&& b.MOST_SIGNIFICANT_BYTE = 0 := by
    rw [Nat.and_comm]; exact hL.msb_ctrl
  by_cases h1 : reg % 256 = b.LEAST_SIGNIFICANT_BYTE
  · rw [write_reg_mod, h1, write_lsb_eq hb, reg_mod_byte hb]
    split
    · exact ⟨⟨pL, lL⟩, ⟨pM, lM⟩, ⟨pC, lC⟩, hr, hl, hm, hc⟩
    · obtain ⟨a1, a2⟩ := latch_line_self b.LEAST_SIGNIFICANT_BYTE (V % 2 ^ b.REGISTER_BITS)
        false { s with lsb_address := V % 256 } hL.lsb_ne_zero hb.lsb_lt lL
      obtain ⟨b1, b2⟩ := latch_line_other b.MOST_SIGNIFICANT_BYTE b.LEAST_SIGNIFICANT_BYTE
        (V % 2 ^ b.REGISTER_BITS) false { s with lsb_address := V % 256 } hb.msb_lt dML pM lM
      obtain ⟨c1, c2⟩ := latch_line_other b.CONTROL_REGISTER b.LEAST_SIGNIFICANT_BYTE
        (V % 2 ^ b.REGISTER_BITS) false { s with lsb_address := V % 256 } hb.ctrl_lt dCL pC lC
      refine ⟨a1, b1, c1, ?_, ?_, ?_, ?_⟩
      · rw [latch_control_register]; exact hr
      · rw [a2, reg_mod_byte hb, latch_lsb_address]
      · rw [b2, latch_msb_address]; exact hm
      · rw [c2, latch_control_register, hw_latch]; exact hc
  · by_cases h2 : reg % 256 = b.MOST_SIGNIFICANT_BYTE
    · rw [write_reg_mod, h2, write_msb_eq hb, reg_mod_byte hb]
      split
      · exact ⟨⟨pL, lL⟩, ⟨pM, lM⟩, ⟨pC, lC⟩, hr, hl, hm, hc⟩
      · obtain ⟨a1, a2⟩ := latch_line_other b.LEAST_SIGNIFICANT_BYTE b.MOST_SIGNIFICANT_BYTE
          (V % 2 ^ b.REGISTER_BITS) false { s with msb_address := V % 256 } hb.lsb_lt
          hL.lsb_msb pL lL
        obtain ⟨b1, b2⟩ := latch_line_self b.MOST_SIGNIFICANT_BYTE (V % 2 ^ b.REGISTER_BITS)
          false { s with msb_address := V % 256 } hL.msb_ne_zero hb.msb_lt lM
        obtain ⟨c1, c2⟩ := latch_line_other b.CONTROL_REGISTER b.MOST_SIGNIFICANT_BYTE
          (V % 2 ^ b.REGISTER_BITS) false { s with msb_address := V % 256 } hb.ctrl_lt dCM pC lC
        refine ⟨a1, b1, c1, ?_, ?_, ?_, ?_⟩
        · rw [latch_control_register]; exact hr
        · rw [a2, latch_lsb_address]; exact hl
        · rw [b2, reg_mod_byte hb, latch_msb_address]
        · rw [c2, latch_control_register, hw_latch]; exact hc
    · by_cases h3 : reg % 256 = b.CONTROL_REGISTER
      · rw [write_reg_mod, h3, write_ctrl_eq hb]
        split
        · exact ⟨⟨pL, lL⟩, ⟨pM, lM⟩, ⟨pC, lC⟩, hr, hl, hm, hc⟩
        · obtain ⟨a1, a2⟩ := latch_line_other b.LEAST_SIGNIFICANT_BYTE b.CONTROL_REGISTER
            (ctrlBusValue b s (V % 2 ^ b.REGISTER_BITS))
            (decide ((s.control_register &&& b.P1_VPP_ENABLE)
              > (V % 2 ^ b.REGISTER_BITS &&& b.P1_VPP_ENABLE)))
            { s with control_register := V % 2 ^ b.REGISTER_BITS } hb.lsb_lt hL.lsb_ctrl pL lL
          obtain ⟨b1, b2⟩ := latch_line_other b.MOST_SIGNIFICANT_BYTE b.CONTROL_REGISTER
            (ctrlBusValue b s (V % 2 ^ b.REGISTER_BITS))
            (decide ((s.control_register &&& b.P1_VPP_ENABLE)
              > (V % 2 ^ b.REGISTER_BITS &&& b.P1_VPP_ENABLE)))
            { s with control_register := V % 2 ^ b.REGISTER_BITS } hb.msb_lt hL.msb_ctrl pM lM
          obtain ⟨c1, c2⟩ := latch_line_self b.CONTROL_REGISTER
            (ctrlBusValue b s (V % 2 ^ b.REGISTER_BITS))
            (decide ((s.control_register &&& b.P1_VPP_ENABLE)
              > (V % 2 ^ b.REGISTER_BITS &&& b.P1_VPP_ENABLE)))
            { s with control_register := V % 2 ^ b.REGISTER_BITS } hL.ctrl_ne_zero hb.ctrl_lt lC
          refine ⟨a1, b1, c1, ?_, ?_, ?_, Or.inr ?_⟩
          · rw [latch_control_register]
            exact Nat.mod_lt _ (Nat.two_pow_pos _)
          · rw [a2, latch_lsb_address]; exact hl
          · rw [b2, latch_msb_address]; exact hm
          · rw [c2, latch_control_register, hw_latch]
            rfl
      · have : rurp_write_to_register b reg V s = s := by
          simp [rurp_write_to_register, h1, h2, h3]
        rw [this]
        exact ⟨⟨pL, lL⟩, ⟨pM, lM⟩, ⟨pC, lC⟩, hr, hl, hm, hc⟩

/-- The state `rurp_setup` returns satisfies `latchInv`. -/
theorem setup_latchInv {b : Board} (hb : b.WF) (hL : b.Lines) (i : BootInputs) (s : State) :
    latchInv b (rurp_get_hardware_revision (rurp_setup_init b i s)) (rurp_setup b i s) := by
  obtain ⟨h1, h2, h3, h4, h5, -⟩ := setup_result hb i s
  obtain ⟨sL, sM, sC⟩ := boot_scan hb hL s.PORTD
    (ctrlLatchByte b (rurp_get_hardware_revision (rurp_setup_init b i s)) 0) s.portb_log
  have dML : b.MOST_SIGNIFICANT_BYTE &&& b.LEAST_SIGNIFICANT_BYTE = 0 := by
    rw [Nat.and_comm]; exact hL.lsb_msb
  have dCL : b.CONTROL_REGISTER &&& b.LEAST_SIGNIFICANT_BYTE = 0 := by
    rw [Nat.and_comm]; exact hL.lsb_ctrl
  have dCM : b.CONTROL_REGISTER &&& b.MOST_SIGNIFICANT_BYTE = 0 := by
    rw [Nat.and_comm]; exact hL.msb_ctrl
  have iL := idle_and (b := b) _ hb.lsb_lt hL.idle_lsb
  have iM := idle_and (b := b) _ hb.msb_lt hL.idle_msb
  have iC := idle_and (b := b) _ hb.ctrl_lt hL.idle_ctrl
  unfold latchInv lastLatched
  rw [h1, h2, h3, h4, h5, sL, sM, sC]
  refine ⟨⟨?_, rfl⟩, ⟨?_, rfl⟩, ⟨?_, rfl⟩, Nat.two_pow_pos _, rfl, rfl, Or.inl rfl⟩
  · rw [portRelease_and_other _ _ _ hb.lsb_lt hL.lsb_ctrl,
      portRelease_and_other _ _ _ hb.lsb_lt hL.lsb_msb, portRelease_and_self _ _ hb.lsb_lt]
  · rw [portRelease_and_other _ _ _ hb.msb_lt hL.msb_ctrl, portRelease_and_self _ _ hb.msb_lt]
  · rw [portRelease_and_self _ _ hb.ctrl_lt]

theorem runWrites_latchInv {b : Board} (hb : b.WF) (hL : b.Lines) (hw : Int)
    (ws : List (Nat × Nat)) :
    ∀ s : State, latchInv b hw s → latchInv b hw (runWrites b ws s) := by
  induction ws with
  | nil => intro s h; exact h
  | cons w ws ih =>
    intro s h
    obtain ⟨reg, V⟩ := w
    exact ih _ (write_preserves_latchInv hb hL hw reg V s h)

/-- A performed control write after boot: the shadow takes the logical value `V`,
the control line latches the bus byte `ctrlLatchByte` of `V`.  Whenever the
remapping (or the truncation to a byte) changes `V`, the two differ. -/
theorem control_write_after_boot {b : Board} (hb : b.WF) (hL : b.Lines) (i : BootInputs)
    (s0 : State) (V : Nat) (hV : V < 2 ^ b.REGISTER_BITS) (hV0 : V ≠ 0) :
    (runWrites b [(b.CONTROL_REGISTER, V)] (rurp_setup b i s0)).control_register = V
    ∧ lastLatched b.CONTROL_REGISTER (runWrites b [(b.CONTROL_REGISTER, V)] (rurp_setup b i s0))
        = some (ctrlLatchByte b (rurp_get_hardware_revision (rurp_setup b i s0)) V) := by
  obtain ⟨-, -, ⟨-, lC⟩, -, -, -, -⟩ := setup_latchInv hb hL i s0
  obtain ⟨-, -, h3, -, -, -⟩ := setup_result hb i s0
  show (rurp_write_to_register b b.CONTROL_REGISTER V (rurp_setup b i s0)).control_register = V
    ∧ lastLatched b.CONTROL_REGISTER
        (rurp_write_to_register b b.CONTROL_REGISTER V (rurp_setup b i s0)) = _
  rw [write_ctrl_eq hb, Nat.mod_eq_of_lt hV, h3, if_neg (Ne.symm hV0)]
  refine ⟨by rw [latch_control_register], ?_⟩
  rw [(latch_line_self b.CONTROL_REGISTER _ _
    { rurp_setup b i s0 with control_register := V } hL.ctrl_ne_zero hb.ctrl_lt lC).2]
  rfl

/-- The revision in effect after boot is the configured override when one is
set. -/
theorem hw_after_setup {b : Board} (hb : b.WF) (i : BootInputs) (s0 : State)
    (h : i.load_config.hardware_revision < 0xFF) :
    rurp_get_hardware_revision (rurp_setup b i s0)
      = (i.load_config.hardware_revision : Int) := by
  obtain ⟨-, -, -, -, -, hcfg⟩ := setup_result hb i s0
  unfold rurp_get_hardware_revision
  rw [hcfg, if_pos h]

/-- If the bus byte of some nonzero control value `V` differs between two
revisions `r1` and `r2`, as the spec says of the remapping, then under one of
the two (configured as the override) a control write of `V` after boot leaves a
control shadow that is not the byte latched on the control line. -/
theorem remap_differs_breaks_shadow {b : Board} (hb : b.WF) (hL : b.Lines)
    (dr ar : Int) (s0 : State) (r1 r2 V : Nat) (h1 : r1 < 0xFF) (h2 : r2 < 0xFF)
    (hV : V < 2 ^ b.REGISTER_BITS) (hV0 : V ≠ 0)
    (hd : ctrlLatchByte b (r1 : Int) V ≠ ctrlLatchByte b (r2 : Int) V) :
    ∃ r, (r = r1 ∨ r = r2)
      ∧ lastLatched b.CONTROL_REGISTER
          (runWrites b [(b.CONTROL_REGISTER, V)]
            (rurp_setup b
              { digitalRead_HARDWARE_REVISION_PIN := dr, analogRead_VOLTAGE_MEASURE_PIN := ar,
                load_config := { hardware_revision := r, r1 := 0, r2 := 0 } } s0))
        ≠ some (runWrites b [(b.CONTROL_REGISTER, V)]
            (rurp_setup b
              { digitalRead_HARDWARE_REVISION_PIN := dr, analogRead_VOLTAGE_MEASURE_PIN := ar,
                load_config := { hardware_revision := r, r1 := 0, r2 := 0 } }
              s0)).control_register := by
  have key : ∀ r : Nat, r < 0xFF → ctrlLatchByte b (r : Int) V ≠ V →
      lastLatched b.CONTROL_REGISTER
          (runWrites b [(b.CONTROL_REGISTER, V)]
            (rurp_setup b
              { digitalRead_HARDWARE_REVISION_PIN := dr, analogRead_VOLTAGE_MEASURE_PIN := ar,
                load_config := { hardware_revision := r, r1 := 0, r2 := 0 } } s0))
        ≠ some (runWrites b [(b.CONTROL_REGISTER, V)]
            (rurp_setup b
              { digitalRead_HARDWARE_REVISION_PIN := dr, analogRead_VOLTAGE_MEASURE_PIN := ar,
                load_config := { hardware_revision := r, r1 := 0, r2 := 0 } }
              s0)).control_register := by
    intro r hr hne
    obtain ⟨e1, e2⟩ := control_write_after_boot hb hL
      { digitalRead_HARDWARE_REVISION_PIN := dr, analogRead_VOLTAGE_MEASURE_PIN := ar,
        load_config := { hardware_revision := r, r1 := 0, r2 := 0 } } s0 V hV hV0
    rw [e1, e2, hw_after_setup hb _ s0 hr]
    intro h
    exact hne (Option.some.inj h)
  by_cases h : ctrlLatchByte b (r1 : Int) V = V
  · refine ⟨r2, Or.inr rfl, key r2 h2 ?_⟩
    intro h'
    exact hd (h.trans h'.symm)
  · exact ⟨r1, Or.inl rfl, key r1 h1 h⟩

/-- C2 as stated fails: on the sample board, after boot and one control write
of `0x01`, the control shadow is `0x01` while the byte on `PORTD` during the
most recent pulse of the control line is the remapped byte `0x10`. -/
theorem C2_counterexample :
    (runWrites sampleBoard [(sampleBoard.CONTROL_REGISTER, 0x01)]
        (rurp_setup sampleBoard sampleBoot sampleState)).control_register = 0x01
    ∧ lastLatched sampleBoard.CONTROL_REGISTER
        (runWrites sampleBoard [(sampleBoard.CONTROL_REGISTER, 0x01)]
          (rurp_setup sampleBoard sampleBoot sampleState)) = some 0x10
    ∧ ¬ (lastLatched sampleBoard.CONTROL_REGISTER
          (runWrites sampleBoard [(sampleBoard.CONTROL_REGISTER, 0x01)]
            (rurp_setup sampleBoard sampleBoot sampleState))
        = some (runWrites sampleBoard [(sampleBoard.CONTROL_REGISTER, 0x01)]
            (rurp_setup sampleBoard sampleBoot sampleState)).control_register) := by
  decide

/-- C2 (amended): in every state reached from the end of `rurp_setup` by any
finite sequence of `rurp_write_to_register` calls, the low and high address
shadows equal the byte that was on `PORTD` during the most recent completed
pulse of their select line of `PORTB`, and the byte on `PORTD` during the most
recent completed pulse of the control line is the low 8 bits of the control
shadow after the revision remapping of `rurp_map_ctrl_reg_to_hardware_revision`
(when `HARDWARE_REVISION` is defined), taken under the revision in effect at
that write: the one during boot, before `load_config`, or the current one.  It
equals the control shadow itself when `HARDWARE_REVISION` is not defined and
`register_t` is 8 bits wide. -/
theorem C2_shadows_vs_latched (b : Board) (hb : b.WF) (hL : b.Lines) (i : BootInputs)
    (s0 : State) (ws : List (Nat × Nat)) :
    lastLatched b.LEAST_SIGNIFICANT_BYTE (runWrites b ws (rurp_setup b i s0))
        = some (runWrites b ws (rurp_setup b i s0)).lsb_address
    ∧ lastLatched b.MOST_SIGNIFICANT_BYTE (runWrites b ws (rurp_setup b i s0))
        = some (runWrites b ws (rurp_setup b i s0)).msb_address
    ∧ (lastLatched b.CONTROL_REGISTER (runWrites b ws (rurp_setup b i s0))
          = some (ctrlLatchByte b (rurp_get_hardware_revision (rurp_setup_init b i s0))
              (runWrites b ws (rurp_setup b i s0)).control_register)
      ∨ lastLatched b.CONTROL_REGISTER (runWrites b ws (rurp_setup b i s0))
          = some (ctrlLatchByte b
              (rurp_get_hardware_revision (runWrites b ws (rurp_setup b i s0)))
              (runWrites b ws (rurp_setup b i s0)).control_register))
    ∧ (b.HARDWARE_REVISION = false → b.REGISTER_BITS = 8 →
        lastLatched b.CONTROL_REGISTER (runWrites b ws (rurp_setup b i s0))
          = some (runWrites b ws (rurp_setup b i s0)).control_register) := by
  obtain ⟨-, -, -, hr, hl, hm, hc⟩ :=
    runWrites_latchInv hb hL _ ws _ (setup_latchInv hb hL i s0)
  refine ⟨hl, hm, hc, ?_⟩
  intro hH h8
  rw [h8] at hr
  have e : ∀ hw : Int,
      ctrlLatchByte b hw (runWrites b ws (rurp_setup b i s0)).control_register
        = (runWrites b ws (rurp_setup b i s0)).control_register := by
    intro hw
    unfold ctrlLatchByte
    rw [hH]
    exact Nat.mod_eq_of_lt hr
  rcases hc with hc | hc
  · rw [hc, e]
  · rw [hc, e]

/-- C2 (amended) applied on the sample board: boot, then a control write of
`0x01` and a low-address write of `0x5A`. -/
theorem C2_shadows_vs_latched_witness :
    sampleBoard.WF ∧ sampleBoard.Lines
    ∧ lastLatched sampleBoard.LEAST_SIGNIFICANT_BYTE
        (runWrites sampleBoard [(0x04, 0x01), (0x01, 0x5A)]
          (rurp_setup sampleBoard sampleBoot sampleState))
      = some (runWrites sampleBoard [(0x04, 0x01), (0x01, 0x5A)]
          (rurp_setup sampleBoard sampleBoot sampleState)).lsb_address
    ∧ lastLatched sampleBoard.MOST_SIGNIFICANT_BYTE
        (runWrites sampleBoard [(0x04, 0x01), (0x01, 0x5A)]
          (rurp_setup sampleBoard sampleBoot sampleState))
      = some (runWrites sampleBoard [(0x04, 0x01), (0x01, 0x5A)]
          (rurp_setup sampleBoard sampleBoot sampleState)).msb_address :=
  ⟨sampleBoard_WF, sampleBoard_Lines,
    (C2_shadows_vs_latched sampleBoard sampleBoard_WF sampleBoard_Lines sampleBoot sampleState
      [(0x04, 0x01), (0x01, 0x5A)]).1,
    (C2_shadows_vs_latched sampleBoard sampleBoard_WF sampleBoard_Lines sampleBoot sampleState
      [(0x04, 0x01), (0x01, 0x5A)]).2.1⟩

/-! ## C8 — mode switch -/

/-- C8 as stated fails: from the power-up sample state (`DDRD = 0x00`),
`rurp_set_programmer_mode` leaves `DDRD = 0x01`, so pins 1–7 of the data bus do
not drive and the bus is not in its output-drive configuration; and from the
output-drive configuration (`DDRD = 0xff`), `rurp_set_communication_mode`
leaves `DDRD = 0xfe`, so pins 1–7 still drive and the bus is not released. -/
theorem C8_counterexample :
    (rurp_set_programmer_mode sampleState).DDRD = 0x01
    ∧ ¬ dataBusOutput (rurp_set_programmer_mode sampleState)
    ∧ (rurp_set_communication_mode (rurp_set_data_as_output sampleState)).DDRD = 0xfe
    ∧ ¬ dataBusInput (rurp_set_communication_mode (rurp_set_data_as_output sampleState)) := by
  decide

/-- C8 (amended): for every starting state, after `rurp_set_programmer_mode` bit
0 of `DDRD` (the host-link receive pin) is set to output, bits 1–7 of `DDRD` are
as before, the host serial link is closed and `comMode` is false; after
`rurp_set_communication_mode` bit 0 of `DDRD` is cleared (input), bits 1–7 of
`DDRD` are as before, the host serial link is open and `comMode` is true. -/
theorem C8_mode_switch (s : State) :
    ((rurp_set_programmer_mode s).DDRD.testBit 0 = true
      ∧ (∀ k, 1 ≤ k → k < 8 →
          (rurp_set_programmer_mode s).DDRD.testBit k = s.DDRD.testBit k)
      ∧ (rurp_set_programmer_mode s).serial_begun = false
      ∧ (rurp_set_programmer_mode s).comMode = false)
    ∧ ((rurp_set_communication_mode s).DDRD.testBit 0 = false
      ∧ (∀ k, 1 ≤ k → k < 8 →
          (rurp_set_communication_mode s).DDRD.testBit k = s.DDRD.testBit k)
      ∧ (rurp_set_communication_mode s).serial_begun = true
      ∧ (rurp_set_communication_mode s).comMode = true) := by
  have e256 : (256 : Nat) = 2 ^ 8 := by norm_num
  have hp : (rurp_set_programmer_mode s).DDRD = (s.DDRD ||| 1) % 2 ^ 8 := by
    rw [← e256]; rfl
  have hcm : (rurp_set_communication_mode s).DDRD = s.DDRD &&& 254 := rfl
  refine ⟨⟨?_, ?_, rfl, rfl⟩, ⟨?_, ?_, rfl, rfl⟩⟩
  · rw [hp, Nat.testBit_mod_two_pow, Nat.testBit_or]
    simp
  · intro k h1 h8
    rw [hp, Nat.testBit_mod_two_pow, Nat.testBit_or]
    have : Nat.testBit 1 k = false := by
      interval_cases k <;> rfl
    simp [this, h8]
  · rw [hcm, Nat.testBit_and]
    simp
  · intro k h1 h8
    rw [hcm, Nat.testBit_and]
    have : Nat.testBit 254 k = true := by
      interval_cases k <;> rfl
    simp [this]

/-! ## C10 — voltage reconstruction -/

/-- ADC data registers `ADCL = 0`, `ADCH = 4` give a conversion result of 1024
and a reference voltage of exactly 1.10 V. -/
theorem read_vcc_sample : rurp_read_vcc 0 4 = 11 / 10 := by
  have h : ((0 % 256 ||| (4 % 256) <<< 8 : Nat) : ℚ) = 1024 := by
    have : (0 % 256 ||| (4 % 256) <<< 8 : Nat) = 1024 := by decide
    rw [this]; norm_num
  unfold rurp_read_vcc
  simp only [h]
  norm_num

/-- With sample 512, `R1 = 10000`, `R2 = 1000`, no content of the ADC data
registers makes `rurp_read_voltage` equal 6.045 V to three decimals: the
conversion results 1025 and 1026 give about 6.0500 V and 6.0441 V. -/
theorem read_voltage_tuple_ne_6045 (ADCL ADCH : Nat) :
    ¬ (|rurp_read_voltage { hardware_revision := 0xFF, r1 := 10000, r2 := 1000 } ADCL ADCH 512
          - 6045 / 1000| ≤ 1 / 2000) := by
  unfold rurp_read_voltage rurp_read_vcc
  simp only [INPUT_RESOLUTION]
  generalize (ADCL % 256 ||| (ADCH % 256) <<< 8) = r
  rw [abs_le]
  rintro ⟨h1, h2⟩
  rcases Nat.eq_zero_or_pos r with h0 | hpos
  · subst h0
    norm_num at h1
  · have hr : (0 : ℚ) < (r : ℚ) := by exact_mod_cast hpos
    have hk : ((512 : ℤ) : ℚ) * (1126400 / (r : ℚ) / 1000 / ((1023 : ℤ) : ℚ))
          * (1 + ((10000 : ℤ) : ℚ) / ((1000 : ℤ) : ℚ)) = (31719424 / 5115 : ℚ) / r := by
      push_cast
      field_simp
      ring
    rw [hk] at h1 h2
    have e : (31719424 / 5115 : ℚ) / r * r = 31719424 / 5115 := div_mul_cancel₀ _ hr.ne'
    have a1 : (60445 : ℚ) / 10000 * r ≤ 31719424 / 5115 := by
      have := mul_le_mul_of_nonneg_right h1 hr.le
      rw [sub_mul, e] at this
      linarith
    have a2 : (31719424 / 5115 : ℚ) ≤ 60455 / 10000 * r := by
      have := mul_le_mul_of_nonneg_right h2 hr.le
      rw [sub_mul, e] at this
      linarith
    have b1 : 60445 * 5115 * r ≤ 31719424 * 10000 := by
      have : ((60445 * 5115 * r : Nat) : ℚ) ≤ ((31719424 * 10000 : Nat) : ℚ) := by
        push_cast; linarith
      exact_mod_cast this
    have b2 : 31719424 * 10000 ≤ 60455 * 5115 * r := by
      have : ((31719424 * 10000 : Nat) : ℚ) ≤ ((60455 * 5115 * r : Nat) : ℚ) := by
        push_cast; linarith
      exact_mod_cast this
    omega

/-- C10 as stated fails in its concrete tuple: with a reference voltage of
1.10 V, sample 512, `R1 = 10000`, `R2 = 1000`, `rurp_read_voltage` is
`2816/465 ≈ 6.0559` V, more than 0.01 V away from 6.045 V. -/
theorem C10_counterexample :
    rurp_read_vcc 0 4 = 11 / 10
    ∧ rurp_read_voltage { hardware_revision := 0xFF, r1 := 10000, r2 := 1000 } 0 4 512
        = 2816 / 465
    ∧ ¬ (|rurp_read_voltage { hardware_revision := 0xFF, r1 := 10000, r2 := 1000 } 0 4 512
          - 6045 / 1000| ≤ 1 / 100) := by
  have hval : rurp_read_voltage { hardware_revision := 0xFF, r1 := 10000, r2 := 1000 } 0 4 512
      = 2816 / 465 := by
    unfold rurp_read_voltage
    simp only [read_vcc_sample, INPUT_RESOLUTION]
    norm_num
  refine ⟨read_vcc_sample, hval, ?_⟩
  rw [hval]
  norm_num [abs_le]

/-- C10 (amended): in exact rational arithmetic, for every reference voltage
returned by `rurp_read_vcc`, raw sample `s` and configured resistances with
`R2` nonzero, `rurp_read_voltage` equals `(v / 1023) * s * (1 + R1/R2)`; and
for `v = 1.10` V, `s = 512`, `R1 = 10000`, `R2 = 1000` the result is
`2816/465` V, that is 6.056 V to three decimals. -/
theorem C10_voltage_reconstruction (cfg : rurp_configuration_t) (ADCL ADCH : Nat)
    (sample : Int) (_hR2 : cfg.r2 ≠ 0) :
    rurp_read_voltage cfg ADCL ADCH sample
        = (rurp_read_vcc ADCL ADCH / 1023) * (sample : ℚ)
            * (1 + (cfg.r1 : ℚ) / (cfg.r2 : ℚ))
    ∧ (rurp_read_vcc ADCL ADCH = 11 / 10 → sample = 512 → cfg.r1 = 10000 →
        cfg.r2 = 1000 →
        rurp_read_voltage cfg ADCL ADCH sample = 2816 / 465
        ∧ |rurp_read_voltage cfg ADCL ADCH sample - 6056 / 1000| < 1 / 2000) := by
  have hform : rurp_read_voltage cfg ADCL ADCH sample
        = (rurp_read_vcc ADCL ADCH / 1023) * (sample : ℚ)
            * (1 + (cfg.r1 : ℚ) / (cfg.r2 : ℚ)) := by
    unfold rurp_read_voltage
    simp only [INPUT_RESOLUTION]
    push_cast
    ring
  refine ⟨hform, ?_⟩
  intro hv hs h1 h2'
  have hval : rurp_read_voltage cfg ADCL ADCH sample = 2816 / 465 := by
    rw [hform, hv, hs, h1, h2']
    norm_num
  refine ⟨hval, ?_⟩
  rw [hval]
  norm_num [abs_lt]

/-- C10 (amended) applied to the spec's tuple: ADC registers giving 1.10 V,
sample 512, `R1 = 10000`, `R2 = 1000`. -/
theorem C10_voltage_reconstruction_witness :
    (1000 : Int) ≠ 0
    ∧ rurp_read_vcc 0 4 = 11 / 10
    ∧ rurp_read_voltage { hardware_revision := 0xFF, r1 := 10000, r2 := 1000 } 0 4 512
        = 2816 / 465
    ∧ |rurp_read_voltage { hardware_revision := 0xFF, r1 := 10000, r2 := 1000 } 0 4 512
        - 6056 / 1000| < 1 / 2000 :=
  ⟨by decide, read_vcc_sample,
    (C10_voltage_reconstruction { hardware_revision := 0xFF, r1 := 10000, r2 := 1000 } 0 4 512
      (by decide)).2 read_vcc_sample rfl rfl rfl⟩

end Firestarter
